import Mathlib

/-!
Verification of the Signal Scoring Engine (MyButler screening services).

This file gives a shallow embedding of the indicator analyzers and the
per-asset aggregation logic of the repository:

* `app/services/technical_analysis/bollinger_analyzer.py`  (`bAnalyze`)
* `app/services/technical_analysis/ma_alignment_analyzer.py`  (`maAnalyze`)
* `app/services/technical_analysis/cup_handle_analyzer.py`  (`chAnalyze`, `findCupPattern`)
* `app/services/ichimoku_service.py`  (`ichAnalyze`)
* `app/services/fundamental_analysis/{roe,gpm,debt,capex}_analyzer.py`
* `app/services/technical_analysis/technical_service.py`  (`technicalAnalyzeStock`)
* `app/services/screening_service.py`  (`passesAllFilters`, `passesAnyFilter`,
  `crossFilterBonus`)

Modelling conventions:

* Prices and ratios are rationals (`ℚ`); the Python code uses IEEE floats, but
  every branch condition of these analyzers is a comparison of field values
  combined with +, -, *, /, so the rational semantics coincides with the float
  semantics up to rounding noise that no claim depends on.
* A pandas `NaN` (warm-up of a rolling window, or a 0/0 division) is modelled
  as `Option.none`.  Comparisons against a possibly-NaN value follow the pandas
  rule that any comparison with NaN is `False` (`optGtQO`, `optLeOO`, ...).
* A division whose denominator is zero but whose numerator is nonzero would be
  IEEE `±inf` in pandas.  `ℚ` has no infinities; every place where this can
  matter carries a comment stating how the (always-degenerate) case is mapped.
* Python `round(x, 2)` is applied by the source only to *stored display copies*
  of float fields (never to a value that feeds a branch or a score); the
  embedding stores the unrounded values.
* Ticker / name / market strings and date strings are bookkeeping only and are
  omitted from the embedded signal records.
* Bollinger band width is `(upper-lower)/middle*100 = 400*sqrt(var)/middle`,
  which is irrational.  The embedding keeps the pair `(var, middle)` and
  compares two band widths with `bwLt`, an exact rational decision procedure
  for `400*sqrt(v1)/m1 < 400*sqrt(v2)/m2` (see its doc comment); likewise
  `np.std(h) <= c` (for `c ≥ 0`) is decided as `variance h ≤ c^2`.
-/

unseal Rat.add Rat.sub Rat.mul Rat.inv

/-- One OHLCV bar (pandas DataFrame row).  Dates are omitted: the analyzers
under study use only positional indexing. -/
structure PriceBar where
  openPrice : ℚ
  high : ℚ
  low : ℚ
  close : ℚ
  volume : ℚ
  value : ℚ
deriving DecidableEq, Repr

/-- A price series: ordered list of bars (oldest first), mirroring the OHLCV
DataFrame handed to every analyzer. -/
abbrev PriceSeries := List PriceBar

def closes (s : PriceSeries) : List ℚ := s.map PriceBar.close

def highsOf (s : PriceSeries) : List ℚ := s.map PriceBar.high

def lowsOf (s : PriceSeries) : List ℚ := s.map PriceBar.low

def volumesOf (s : PriceSeries) : List ℚ := s.map PriceBar.volume

def valuesOf (s : PriceSeries) : List ℚ := s.map PriceBar.value

/-- The window `xs[i+1-w .. i]` that pandas `rolling(window=w)` aggregates at
position `i`; `none` during warm-up (fewer than `w` prior samples) or out of
range. -/
def winSlice (xs : List ℚ) (w i : ℕ) : Option (List ℚ) :=
  if w ≤ i + 1 ∧ i < xs.length then some ((xs.drop (i + 1 - w)).take w) else none

/-- `df[col].rolling(window=w).mean()` at position `i` (`none` = NaN). -/
def rollingMean (xs : List ℚ) (w i : ℕ) : Option ℚ :=
  (winSlice xs w i).map (fun l => l.sum / (w : ℚ))

/-- Sample variance (`ddof=1`, the pandas `rolling(...).std()` default) of the
window at position `i`.  The source uses the standard deviation
`sqrt` of this; every use is inside a comparison, which the embedding decides
on the variance (see the file header). -/
def rollingVarS (xs : List ℚ) (w i : ℕ) : Option ℚ :=
  (winSlice xs w i).map (fun l =>
    let m := l.sum / (w : ℚ)
    (l.map (fun x => (x - m) ^ 2)).sum / ((w : ℚ) - 1))

/-- `df[col].rolling(window=w).max()` at position `i` (`none` = NaN). -/
def rollingMax (xs : List ℚ) (w i : ℕ) : Option ℚ :=
  (winSlice xs w i).bind List.max?

/-- `df[col].rolling(window=w).min()` at position `i` (`none` = NaN). -/
def rollingMin (xs : List ℚ) (w i : ℕ) : Option ℚ :=
  (winSlice xs w i).bind List.min?

/-- Mean of `series.tail(k)`.  pandas returns NaN on an empty frame; the only
use sites compare the result with `> 0` (False for NaN) or store it, and `ℚ`
division by zero returns 0, which gives the same branch outcomes. -/
def tailMean (xs : List ℚ) (k : ℕ) : ℚ :=
  let t := xs.drop (xs.length - k)
  t.sum / (t.length : ℚ)

/-- Pandas comparison `a > b` where both sides may be NaN: False if either is. -/
def optGtOO (a b : Option ℚ) : Bool :=
  match a, b with
  | some x, some y => decide (x > y)
  | _, _ => false

/-- Pandas comparison `a <= b` where both sides may be NaN: False if either is. -/
def optLeOO (a b : Option ℚ) : Bool :=
  match a, b with
  | some x, some y => decide (x ≤ y)
  | _, _ => false

/-- Pandas comparison `c > b` with a plain left operand. -/
def optGtQO (c : ℚ) (b : Option ℚ) : Bool :=
  match b with
  | some y => decide (c > y)
  | none => false

/-- Python `abs` on rationals (executable; the Mathlib `|·|` does not reduce
under kernel evaluation). -/
def qabs (x : ℚ) : ℚ := if x < 0 then -x else x

-- ===========================================================================
-- Bollinger analyzer (`bollinger_analyzer.py`)
-- ===========================================================================

/-- Sign of the real number `400*sqrt(v)/m` (assuming `v ≥ 0`, which holds for
every variance the analyzer produces): `0` when `v = 0`, otherwise the sign
of `m`. -/
def bwSign (v m : ℚ) : ℤ :=
  if v = 0 then 0 else if 0 < m then 1 else if m < 0 then -1 else 0

/-- Exact decision of `400*sqrt(v₁)/m₁ < 400*sqrt(v₂)/m₂` for `v ≥ 0`,
`m ≠ 0`: compare signs first; for equal nonzero signs square both sides
(`sqrt(v₁)/m₁ < sqrt(v₂)/m₂  ↔  v₁*m₂² < v₂*m₁²` when both are positive, and
the reverse when both are negative). -/
def bwLt (p q : ℚ × ℚ) : Bool :=
  let s₁ := bwSign p.1 p.2
  let s₂ := bwSign q.1 q.2
  if s₁ ≠ s₂ then decide (s₁ < s₂)
  else if s₁ = 0 then false
  else if 0 < s₁ then decide (p.1 * q.2 ^ 2 < q.1 * p.2 ^ 2)
  else decide (q.1 * p.2 ^ 2 < p.1 * q.2 ^ 2)

/-- The `bandwidth` column at position `i`, represented as the pair
`(var, middle)` standing for the real value `400*sqrt(var)/middle`
(`= (bb_upper - bb_lower)/bb_middle*100`).  `none` when the rolling statistics
are NaN or `middle = 0` — pandas produces NaN in the `0/0` sub-case; the
`middle = 0 ∧ var ≠ 0` sub-case would be IEEE `±inf` (only possible when the
20-bar mean close is exactly 0 while the closes vary), which we also map to
`none`; no claim below touches such a series. -/
def bandwidthAt (cs : List ℚ) (i : ℕ) : Option (ℚ × ℚ) :=
  match rollingVarS cs 20 i, rollingMean cs 20 i with
  | some v, some m => if m = 0 then none else some (v, m)
  | _, _ => none

/-- Result record of `BollingerAnalyzer.analyze`.  `bandwidth_var` /
`bandwidth_mid` are the `(var, middle)` pair representing the stored
`bandwidth`; `upper_band`/`lower_band` (`middle ± 2·sqrt(var)`) and
`percent_b` are irrational display copies and are not stored (no branch or
claim reads them back). -/
structure BollingerSignal where
  middle_band : ℚ
  bandwidth_var : ℚ
  bandwidth_mid : ℚ
  is_squeeze : Bool
  is_strong_squeeze : Bool
  bandwidth_percentile : ℚ
  volume_ratio : ℚ
  volume_surge : Bool
  strong_volume_surge : Bool
  band_breakout_attempt : Bool
  score : ℤ
deriving DecidableEq, Repr

/-- `BollingerAnalyzer._calculate_score`. -/
def bCalcScore (is_squeeze is_strong_squeeze volume_surge strong_volume_surge
    band_breakout_attempt : Bool) : ℤ :=
  let score : ℤ :=
    (if is_strong_squeeze then 35 else if is_squeeze then 25 else 0)
    + (if strong_volume_surge then 30 else if volume_surge then 20 else 0)
    + (if band_breakout_attempt then 15 else 0)
  min score 80

/-- `BollingerAnalyzer.analyze`.  Flow of the source: length guard (60),
NaN guard on `bb_middle`/`bandwidth`, percentile of the current band width in
its own trailing 60-sample distribution (≥ 30 valid samples required), volume
ratio vs the 20-bar average, `%B ≥ 0.8` breakout attempt, then
`_calculate_score`.
The `%B` flag `(close - lower)/(upper - lower) ≥ 0.8` is decided exactly:
when `var = 0` the expression is `0/0` = NaN, defaulted by the source to 0.5
(flag False); when `var > 0` it is equivalent to
`close - middle ≥ 1.2*sqrt(var)`, i.e. `close - middle ≥ 0` and
`(close - middle)² ≥ 1.44*var`.
The volume ratio `volume/volume_ma` with `volume_ma = 0` would be IEEE
`inf` (flagging a surge) when `volume > 0` and `0/0` NaN (defaulted to 0)
otherwise; the flags below implement exactly that; the stored display ratio is
0 in both sub-cases since `ℚ` cannot represent `inf`. -/
def bAnalyze (s : PriceSeries) : Option BollingerSignal :=
  if s.length < 60 then none
  else
    let n := s.length
    let cs := closes s
    let vs := volumesOf s
    let c := cs.getD (n - 1) 0
    match rollingVarS cs 20 (n - 1), rollingMean cs 20 (n - 1) with
    | some v, some m =>
      if m = 0 then none
      else
        let recent := (List.range 60).filterMap (fun k => bandwidthAt cs (n - 60 + k))
        if recent.length < 30 then none
        else
          let pct : ℚ := 100 * (recent.countP (fun p => bwLt p (v, m))) / (recent.length : ℚ)
          let is_strong_squeeze := decide (pct ≤ 10)
          let is_squeeze := decide (pct ≤ 20)
          let cv := vs.getD (n - 1) 0
          let strong_volume_surge :=
            match rollingMean vs 20 (n - 1) with
            | none => false
            | some mv => if mv = 0 then decide (0 < cv) else decide (cv / mv ≥ 3)
          let volume_surge :=
            match rollingMean vs 20 (n - 1) with
            | none => false
            | some mv => if mv = 0 then decide (0 < cv) else decide (cv / mv ≥ 2)
          let volume_ratio :=
            match rollingMean vs 20 (n - 1) with
            | none => 0
            | some mv => if mv = 0 then 0 else cv / mv
          let band_breakout_attempt :=
            if v = 0 then false
            else decide (0 ≤ c - m) && decide ((c - m) ^ 2 ≥ 36 / 25 * v)
          some
            { middle_band := m
              bandwidth_var := v
              bandwidth_mid := m
              is_squeeze := is_squeeze
              is_strong_squeeze := is_strong_squeeze
              bandwidth_percentile := pct
              volume_ratio := volume_ratio
              volume_surge := volume_surge
              strong_volume_surge := strong_volume_surge
              band_breakout_attempt := band_breakout_attempt
              score := bCalcScore is_squeeze is_strong_squeeze volume_surge
                strong_volume_surge band_breakout_attempt }
    | _, _ => none

-- ===========================================================================
-- Moving-average alignment analyzer (`ma_alignment_analyzer.py`)
-- ===========================================================================

/-- Result record of `MAAlignmentAnalyzer.analyze`.  The four SMA fields and
`disparity` are stored as they come off the rolling columns (`none` = NaN;
for a series passing the length guard they are always defined). -/
structure MAAlignmentSignal where
  sma_5 : Option ℚ
  sma_20 : Option ℚ
  sma_60 : Option ℚ
  sma_120 : Option ℚ
  disparity : Option ℚ
  is_perfect_alignment : Bool
  is_partial_alignment : Bool
  alignment_count : ℕ
  golden_cross_5_20 : Bool
  golden_cross_20_60 : Bool
  golden_cross_60_120 : Bool
  disparity_optimal : Bool
  disparity_overheated : Bool
  score : ℤ
deriving DecidableEq, Repr

/-- The `disparity` column `((Close - sma_20)/sma_20)*100` at position `i`.
`none` when `sma_20` is NaN or the division degenerates (`sma_20 = 0`; the
`Close ≠ 0` sub-case would be IEEE `±inf`, only possible when the 20-bar
mean close is exactly 0 — mapped to `none`, see the file header). -/
def disparityAt (cs : List ℚ) (i : ℕ) : Option ℚ :=
  match rollingMean cs 20 i, cs.get? i with
  | some m, some c => if m = 0 then none else some ((c - m) / m * 100)
  | _, _ => none

/-- `MAAlignmentAnalyzer._detect_golden_cross`: a fast/slow SMA sign change in
the last 5 bars; bar pairs with any NaN among the four values are skipped
(`continue` in the source). -/
def detectGoldenCross (cs : List ℚ) (n fastW slowW : ℕ) : Bool :=
  if n < 6 then false
  else
    (List.range 5).any (fun k =>
      let i := k + 1
      match rollingMean cs fastW (n - i), rollingMean cs slowW (n - i),
          rollingMean cs fastW (n - i - 1), rollingMean cs slowW (n - i - 1) with
      | some cf, some cs', some pf, some ps => decide (pf ≤ ps) && decide (cf > cs')
      | _, _, _, _ => false)

/-- `MAAlignmentAnalyzer._calculate_score`. -/
def maCalcScore (is_perfect is_partial g1 g2 g3 dOpt dOver : Bool) : ℤ :=
  let score : ℤ :=
    (if is_perfect then 40 else if is_partial then 25 else 0)
    + (if g1 then 10 else 0) + (if g2 then 15 else 0) + (if g3 then 20 else 0)
    + (if dOver then -20 else if dOpt then 10 else 0)
  max (-100) (min score 95)

/-- `MAAlignmentAnalyzer.analyze`: length guard (130), NaN guard on `sma_120`,
strict alignment chain `Close > sma5 > sma20 > sma60 > sma120` counted with
pandas NaN-comparison semantics, three golden-cross scans, disparity band
flags, then `_calculate_score`. -/
def maAnalyze (s : PriceSeries) : Option MAAlignmentSignal :=
  if s.length < 130 then none
  else
    let n := s.length
    let cs := closes s
    let c := cs.getD (n - 1) 0
    let s5 := rollingMean cs 5 (n - 1)
    let s20 := rollingMean cs 20 (n - 1)
    let s60 := rollingMean cs 60 (n - 1)
    let s120 := rollingMean cs 120 (n - 1)
    match s120 with
    | none => none
    | some _ =>
      let disparity := disparityAt cs (n - 1)
      let checks : List Bool :=
        [optGtQO c s5, optGtOO s5 s20, optGtOO s20 s60, optGtOO s60 s120]
      let alignment_count := checks.count true
      let is_perfect_alignment := decide (alignment_count = 4)
      let is_partial_alignment := decide (alignment_count ≥ 3)
      let g1 := detectGoldenCross cs n 5 20
      let g2 := detectGoldenCross cs n 20 60
      let g3 := detectGoldenCross cs n 60 120
      let disparity_optimal :=
        match disparity with
        | some d => decide (5 ≤ d) && decide (d ≤ 15)
        | none => false
      let disparity_overheated :=
        match disparity with
        | some d => decide (d > 15)
        | none => false
      some
        { sma_5 := s5
          sma_20 := s20
          sma_60 := s60
          sma_120 := s120
          disparity := disparity
          is_perfect_alignment := is_perfect_alignment
          is_partial_alignment := is_partial_alignment
          alignment_count := alignment_count
          golden_cross_5_20 := g1
          golden_cross_20_60 := g2
          golden_cross_60_120 := g3
          disparity_optimal := disparity_optimal
          disparity_overheated := disparity_overheated
          score := maCalcScore is_perfect_alignment is_partial_alignment g1 g2 g3
            disparity_optimal disparity_overheated }

-- ===========================================================================
-- Cup-and-handle analyzer (`cup_handle_analyzer.py`)
-- ===========================================================================

/-- One scan step of `np.argmax`: state `(next index, best index, best value)`,
strict improvement only (so the first occurrence of the maximum wins). -/
def argStepMax (st : ℕ × ℕ × ℚ) (x : ℚ) : ℕ × ℕ × ℚ :=
  if x > st.2.2 then (st.1 + 1, st.1, x) else (st.1 + 1, st.2.1, st.2.2)

/-- One scan step of `np.argmin` (first occurrence of the minimum wins). -/
def argStepMin (st : ℕ × ℕ × ℚ) (x : ℚ) : ℕ × ℕ × ℚ :=
  if x < st.2.2 then (st.1 + 1, st.1, x) else (st.1 + 1, st.2.1, st.2.2)

/-- Index (relative to the slice) of the first occurrence of the maximum, as
`np.argmax` computes it. -/
def argmaxIdx (xs : List ℚ) : ℕ :=
  (xs.foldl argStepMax ((0 : ℕ), (0 : ℕ), xs.headD 0)).2.1

/-- Index (relative to the slice) of the first occurrence of the minimum, as
`np.argmin` computes it. -/
def argminIdx (xs : List ℚ) : ℕ :=
  (xs.foldl argStepMin ((0 : ℕ), (0 : ℕ), xs.headD 0)).2.1

/-- The slice `xs[a:b]` (Python slicing). -/
def pySlice (xs : List ℚ) (a b : ℕ) : List ℚ :=
  (xs.drop a).take (b - a)

/-- A surviving cup candidate of `CupHandleAnalyzer._find_cup_pattern`:
`(cup_start_idx, cup_bottom_idx, cup_end_idx, left_peak, cup_bottom,
right_peak, cup_depth, cup_duration)` of the source (the returned
`cup_start_idx`/`cup_end_idx` are the left/right peak indices). -/
structure CupCandidate where
  leftPeakIdx : ℕ
  bottomIdx : ℕ
  rightPeakIdx : ℕ
  leftPeak : ℚ
  cupBottom : ℚ
  rightPeak : ℚ
  depth : ℚ
  duration : ℕ
deriving DecidableEq, Repr

/-- Evaluation of one `(start_offset, duration)` candidate of the
`_find_cup_pattern` double loop: locate the left peak, the bottom and the
right peak, apply the depth / right-ratio / U-shape guards, and return the
candidate together with its `pattern_score` (symmetry × depth fit); `none`
when any guard rejects.
The source divides by `left_peak` without a guard; `left_peak = 0` gives a
numpy `nan`/`±inf` depth, and such a candidate can never be retained (an
infinite depth fails the range guard and a `nan` pattern score fails the
strict `> best_score` update), so the embedding rejects it here. -/
def evalCandidate (cs hs : List ℚ) (n so dur : ℕ) : Option (CupCandidate × ℚ) :=
  let start := n - so - 1
  let lrs := start - 5
  let lre := min n (start + 10)
  let leftSlice := pySlice hs lrs lre
  let lpIdx := lrs + argmaxIdx leftSlice
  let leftPeak := hs.getD lpIdx 0
  let endIdx := start + dur
  if n ≤ endIdx then none
  else
    let ss := lpIdx + 5
    let se := endIdx - 5
    if se ≤ ss then none
    else
      let botIdx := ss + argminIdx (pySlice cs ss se)
      let cupBottom := cs.getD botIdx 0
      if leftPeak = 0 then none
      else
        let depth := (leftPeak - cupBottom) / leftPeak * 100
        if depth < 15 ∨ depth > 40 then none
        else
          let rrs := botIdx + 5
          let rre := min n (endIdx + 5)
          if rre ≤ rrs then none
          else
            let rpIdx := rrs + argmaxIdx (pySlice hs rrs rre)
            let rightPeak := hs.getD rpIdx 0
            let ratio := rightPeak / leftPeak
            if ratio < 9 / 10 ∨ ratio > 11 / 10 then none
            else if cupBottom ≥ leftPeak * (9 / 10) ∨ cupBottom ≥ rightPeak * (9 / 10) then none
            else
              let sym := 1 - qabs (ratio - 1)
              let dfit := 1 - qabs (depth - 25) / 25
              some
                ({ leftPeakIdx := lpIdx
                   bottomIdx := botIdx
                   rightPeakIdx := rpIdx
                   leftPeak := leftPeak
                   cupBottom := cupBottom
                   rightPeak := rightPeak
                   depth := depth
                   duration := dur }, sym * dfit)

/-- One step of the best-candidate accumulation: keep the incumbent unless the
candidate evaluates and its `pattern_score` strictly beats `best_score`. -/
def cupStep (cs hs : List ℚ) (n : ℕ) (st : Option CupCandidate × ℚ) (pr : ℕ × ℕ) :
    Option CupCandidate × ℚ :=
  match evalCandidate cs hs n pr.1 pr.2 with
  | none => st
  | some (cand, psc) => if psc > st.2 then (some cand, psc) else st

/-- The `(start_offset, duration)` pairs of the `_find_cup_pattern` double loop,
in loop order: `start_offset ∈ range(60, search_range)`,
`duration ∈ range(60, min(start_offset, 130) + 1)`.  The source's
`if start_idx < 0: break` can never fire (`start_offset ≤ search_range - 1 ≤
len - 1`), so the flat enumeration is faithful. -/
def cupPairs (n : ℕ) : List (ℕ × ℕ) :=
  let searchRange := min n 150
  (List.range' 60 (searchRange - 60)).flatMap
    (fun so => (List.range' 60 (min so 130 + 1 - 60)).map (fun dur => (so, dur)))

/-- `CupHandleAnalyzer._find_cup_pattern`: bounded search over candidate cup
geometries, retaining the single candidate with the strictly highest
`pattern_score` (initial best score 0). -/
def findCupPattern (s : PriceSeries) : Option CupCandidate :=
  if s.length < 60 then none
  else
    let n := s.length
    let cs := closes s
    let hs := highsOf s
    ((cupPairs n).foldl (cupStep cs hs n) (none, 0)).1

/-- `CupHandleAnalyzer._find_handle_pattern`: minimum low after the cup end,
qualified when its depth below the right peak is in [5%, 15%].
`right_peak ≠ 0` for every accepted cup (see `evalCandidate`), so the plain
`ℚ` division is exact here. -/
def findHandlePattern (s : PriceSeries) (cupEndIdx : ℕ) (rightPeak : ℚ) : Option ℚ :=
  if s.length - 5 ≤ cupEndIdx then none
  else
    let region := (lowsOf s).drop cupEndIdx
    if region.length < 5 then none
    else
      let handleLow := (region.min?).getD 0
      let handleDepth := (rightPeak - handleLow) / rightPeak * 100
      if 5 ≤ handleDepth ∧ handleDepth ≤ 15 then some handleDepth else none

/-- Result record of `CupHandleAnalyzer.analyze` (`CupHandleSignal` dataclass;
defaults as in the source, date strings omitted). -/
structure CupHandleSignal where
  cup_detected : Bool
  cup_depth_percent : ℚ := 0
  cup_duration_days : ℕ := 0
  handle_detected : Bool := false
  handle_depth_percent : ℚ := 0
  left_peak_price : ℚ := 0
  cup_bottom_price : ℚ := 0
  right_peak_price : ℚ := 0
  current_price : ℚ := 0
  breakout_imminent : Bool := false
  breakout_confirmed : Bool := false
  volume_ratio : ℚ := 0
  volume_surge : Bool := false
  score : ℤ := 0
deriving DecidableEq, Repr

/-- `CupHandleAnalyzer._calculate_score`. -/
def chCalcScore (cup_detected handle_detected breakout_imminent breakout_confirmed
    volume_surge : Bool) : ℤ :=
  let score : ℤ :=
    (if cup_detected then 25 else 0)
    + (if handle_detected then 15 else 0)
    + (if breakout_confirmed then 25 else if breakout_imminent then 15 else 0)
    + (if volume_surge then 20 else 0)
  min score 100

/-- `CupHandleAnalyzer.analyze`: length guard (150); with no surviving cup the
signal reports `cup_detected = false` with score 0 (not `none`); otherwise the
handle search, breakout state against `max(left_peak, right_peak)`, the
volume surge check (guarded `volume_ma > 0` in the source) and
`_calculate_score`. -/
def chAnalyze (s : PriceSeries) : Option CupHandleSignal :=
  if s.length < 150 then none
  else
    let n := s.length
    let c := (closes s).getD (n - 1) 0
    match findCupPattern s with
    | none => some { cup_detected := false, current_price := c, score := 0 }
    | some cup =>
      let handle := findHandlePattern s cup.rightPeakIdx cup.rightPeak
      let handle_detected := handle.isSome
      let handle_depth := handle.getD 0
      let resistance := max cup.leftPeak cup.rightPeak
      let breakout_imminent := decide (c ≥ resistance * (97 / 100))
      let breakout_confirmed := decide (c ≥ resistance)
      let volumeMa := tailMean (volumesOf s) 20
      let cv := (volumesOf s).getD (n - 1) 0
      let volume_ratio := if volumeMa > 0 then cv / volumeMa else 0
      let volume_surge := decide (volume_ratio ≥ 2)
      some
        { cup_detected := true
          cup_depth_percent := cup.depth
          cup_duration_days := cup.duration
          handle_detected := handle_detected
          handle_depth_percent := handle_depth
          left_peak_price := cup.leftPeak
          cup_bottom_price := cup.cupBottom
          right_peak_price := cup.rightPeak
          current_price := c
          breakout_imminent := breakout_imminent
          breakout_confirmed := breakout_confirmed
          volume_ratio := volume_ratio
          volume_surge := volume_surge
          score := chCalcScore true handle_detected breakout_imminent breakout_confirmed
            volume_surge }

-- ===========================================================================
-- Ichimoku service (`ichimoku_service.py`)
-- ===========================================================================

/-- `SignalStrength` enum. -/
inductive SignalStrength where
  | strongBuy
  | buy
  | weakBuy
  | neutral
  | weakSell
  | sell
  | strongSell
deriving DecidableEq, Repr

/-- NaN-skipping row-wise max, as `df[["a","b"]].max(axis=1)` computes it. -/
def nanMax (a b : Option ℚ) : Option ℚ :=
  match a, b with
  | some x, some y => some (max x y)
  | some x, none => some x
  | none, some y => some y
  | none, none => none

/-- NaN-skipping row-wise min, as `df[["a","b"]].min(axis=1)` computes it. -/
def nanMin (a b : Option ℚ) : Option ℚ :=
  match a, b with
  | some x, some y => some (min x y)
  | some x, none => some x
  | none, some y => some y
  | none, none => none

/-- The `tenkan_sen` column (9-bar high/low midpoint) at position `i`. -/
def tenkanAt (s : PriceSeries) (i : ℕ) : Option ℚ :=
  match rollingMax (highsOf s) 9 i, rollingMin (lowsOf s) 9 i with
  | some h, some l => some ((h + l) / 2)
  | _, _ => none

/-- The `kijun_sen` column (26-bar high/low midpoint) at position `i`. -/
def kijunAt (s : PriceSeries) (i : ℕ) : Option ℚ :=
  match rollingMax (highsOf s) 26 i, rollingMin (lowsOf s) 26 i with
  | some h, some l => some ((h + l) / 2)
  | _, _ => none

/-- The `senkou_span_a` column (`(tenkan+kijun)/2` shifted forward 26 bars)
at position `i`. -/
def spanAAt (s : PriceSeries) (i : ℕ) : Option ℚ :=
  if i < 26 then none
  else
    match tenkanAt s (i - 26), kijunAt s (i - 26) with
    | some t, some k => some ((t + k) / 2)
    | _, _ => none

/-- The `senkou_span_b` column (52-bar high/low midpoint shifted forward 26
bars) at position `i`. -/
def spanBAt (s : PriceSeries) (i : ℕ) : Option ℚ :=
  if i < 26 then none
  else
    match rollingMax (highsOf s) 52 (i - 26), rollingMin (lowsOf s) 52 (i - 26) with
    | some h, some l => some ((h + l) / 2)
    | _, _ => none

/-- The `cloud_top` column at position `i`. -/
def cloudTopAt (s : PriceSeries) (i : ℕ) : Option ℚ :=
  nanMax (spanAAt s i) (spanBAt s i)

/-- The `cloud_bottom` column at position `i`. -/
def cloudBottomAt (s : PriceSeries) (i : ℕ) : Option ℚ :=
  nanMin (spanAAt s i) (spanBAt s i)

/-- The `cloud_thickness` column `|senkou_span_a - senkou_span_b|` at
position `i` (NaN if either span is). -/
def cloudThicknessAt (s : PriceSeries) (i : ℕ) : Option ℚ :=
  match spanAAt s i, spanBAt s i with
  | some a, some b => some (qabs (a - b))
  | _, _ => none

/-- `IchimokuService._detect_cloud_breakout` over the last 5 bars:
`Close ≤ cloud_top` on the previous bar and `Close > cloud_top` on the
current bar; pandas NaN comparisons are False. -/
def detectCloudBreakout (s : PriceSeries) : Bool :=
  let n := s.length
  if n < 6 then false
  else
    (List.range 5).any (fun k =>
      let i := k + 1
      let prevClose := (closes s).getD (n - i - 1) 0
      let curClose := (closes s).getD (n - i) 0
      optLeOO (some prevClose) (cloudTopAt s (n - i - 1))
        && optGtQO curClose (cloudTopAt s (n - i)))

/-- `IchimokuService._detect_golden_cross` over the last 5 bars:
`tenkan ≤ kijun` on the previous bar and `tenkan > kijun` on the current bar;
pandas NaN comparisons are False. -/
def detectIchimokuGoldenCross (s : PriceSeries) : Bool :=
  let n := s.length
  if n < 6 then false
  else
    (List.range 5).any (fun k =>
      let i := k + 1
      optLeOO (tenkanAt s (n - i - 1)) (kijunAt s (n - i - 1))
        && optGtOO (tenkanAt s (n - i)) (kijunAt s (n - i)))

/-- `IchimokuService._calculate_score`: the price-vs-cloud tier
(+30 / +10 / -20), ±20 or ∓10 for the pivot crossover and lagging-span
conditions, +10 or -5 for cloud bullishness, +15 and +10 breakout and crossover
bonuses, clamped to [-100, 100]. -/
def ichCalcScore (price_above_cloud tenkan_above_kijun chikou_above_price
    cloud_bullish cloud_breakout golden_cross : Bool)
    (current_price cloud_bottom : ℚ) : ℤ :=
  let score : ℤ :=
    (if price_above_cloud then 30 else if current_price > cloud_bottom then 10 else -20)
    + (if tenkan_above_kijun then 20 else -10)
    + (if chikou_above_price then 20 else -10)
    + (if cloud_bullish then 10 else -5)
    + (if cloud_breakout then 15 else 0)
    + (if golden_cross then 10 else 0)
  max (-100) (min 100 score)

/-- `IchimokuService._determine_signal_strength`. -/
def determineSignalStrength (score : ℤ) : SignalStrength :=
  if score ≥ 80 then .strongBuy
  else if score ≥ 50 then .buy
  else if score ≥ 20 then .weakBuy
  else if score ≥ -20 then .neutral
  else if score ≥ -50 then .weakSell
  else if score ≥ -80 then .sell
  else .strongSell

/-- Result record of `IchimokuService.analyze_signal` (`IchimokuSignal`
dataclass; the stored `chikou_span` equals the current price in the source). -/
structure IchimokuSignal where
  current_price : ℚ
  signal_strength : SignalStrength
  score : ℤ
  price_above_cloud : Bool
  tenkan_above_kijun : Bool
  chikou_above_price : Bool
  cloud_bullish : Bool
  cloud_breakout : Bool
  golden_cross : Bool
  thin_cloud : Bool
  tenkan_sen : ℚ
  kijun_sen : ℚ
  senkou_span_a : ℚ
  senkou_span_b : ℚ
  chikou_span : ℚ
  avg_trading_value : ℚ
deriving DecidableEq, Repr

/-- Whether the four NaN-checked current values of
`IchimokuService.analyze_signal` (tenkan, kijun, span A, span B at the last
bar) are all defined. -/
def ichimokuValuesDefined (s : PriceSeries) : Bool :=
  (tenkanAt s (s.length - 1)).isSome && (kijunAt s (s.length - 1)).isSome
    && (spanAAt s (s.length - 1)).isSome && (spanBAt s (s.length - 1)).isSome

/-- `IchimokuService.analyze_signal`: minimum-length guard
`len < 52 + 26 + 5` (= 83), NaN guards on the four current values, the four
trend conditions, the 5-bar breakout and golden-cross scans, the thin-cloud
check against half the 10-bar average thickness (NaN-skipping mean), score
and signal strength. -/
def ichAnalyze (s : PriceSeries) : Option IchimokuSignal :=
  if s.length < 52 + 26 + 5 then none
  else
    let n := s.length
    let c := (closes s).getD (n - 1) 0
    let price26ago := if 26 < n then (closes s).getD (n - 27) 0 else c
    match tenkanAt s (n - 1), kijunAt s (n - 1), spanAAt s (n - 1), spanBAt s (n - 1) with
    | some tk, some kj, some sa, some sb =>
      let cloudTop := max sa sb
      let cloudBottom := min sa sb
      let price_above_cloud := decide (c > cloudTop)
      let tenkan_above_kijun := decide (tk > kj)
      let chikou_above_price := decide (c > price26ago)
      let cloud_bullish := decide (sa > sb)
      let cloud_breakout := detectCloudBreakout s
      let golden_cross := detectIchimokuGoldenCross s
      let thicknessTail := (List.range 10).filterMap (fun k => cloudThicknessAt s (n - 10 + k))
      let thin_cloud :=
        if thicknessTail.length = 0 then false
        else decide (qabs (sa - sb) < thicknessTail.sum / (thicknessTail.length : ℚ) * (1 / 2))
      let score := ichCalcScore price_above_cloud tenkan_above_kijun chikou_above_price
        cloud_bullish cloud_breakout golden_cross c cloudBottom
      some
        { current_price := c
          signal_strength := determineSignalStrength score
          score := score
          price_above_cloud := price_above_cloud
          tenkan_above_kijun := tenkan_above_kijun
          chikou_above_price := chikou_above_price
          cloud_bullish := cloud_bullish
          cloud_breakout := cloud_breakout
          golden_cross := golden_cross
          thin_cloud := thin_cloud
          tenkan_sen := tk
          kijun_sen := kj
          senkou_span_a := sa
          senkou_span_b := sb
          chikou_span := c
          avg_trading_value := tailMean (valuesOf s) 5 }
    | _, _, _, _ => none

-- ===========================================================================
-- Fundamental analyzers (`fundamental_analysis/*.py`)
-- ===========================================================================

/-- `FundamentalData` container (`fundamental_models.py`).  The per-year
`Dict[int, float]` maps are modelled as association lists with distinct keys
(a Python dict cannot repeat a key); ticker/name strings omitted. -/
structure FundamentalData where
  is_valid : Bool
  roe_data : List (ℤ × ℚ) := []
  gpm_data : List (ℤ × ℚ) := []
  total_debt : ℚ := 0
  total_equity : ℚ := 0
  net_income : ℚ := 0
  capex_data : List (ℤ × ℚ) := []
  net_income_data : List (ℤ × ℚ) := []
  current_price : ℚ := 0
deriving DecidableEq, Repr

/-- Dict lookup `d[y]` (first matching key; total with default 0, only ever
applied to present keys). -/
def lookupYear (d : List (ℤ × ℚ)) (y : ℤ) : ℚ :=
  ((d.find? (fun p => p.1 == y)).map Prod.snd).getD 0

/-- Python `sorted(d.keys())`. -/
def sortedKeys (d : List (ℤ × ℚ)) : List ℤ :=
  (d.map Prod.fst).insertionSort (· ≤ ·)

/-- The per-year values of a map, oldest year first
(`[d[year] for year in sorted(d.keys())]`). -/
def sortedVals (d : List (ℤ × ℚ)) : List ℚ :=
  (sortedKeys d).map (lookupYear d)

/-- Population variance `np.std(h)^2` (`np.std` uses `ddof=0`); comparisons
`np.std h ≤ c` with `c ≥ 0` are decided as `varP h ≤ c²`. -/
def varP (h : List ℚ) : ℚ :=
  let m := h.sum / (h.length : ℚ)
  (h.map (fun x => (x - m) ^ 2)).sum / (h.length : ℚ)

/-- Result record of `ROEAnalyzer.analyze` (`ROESignal`); `roe_var` is the
population variance standing for the stored `roe_std = sqrt(roe_var)`. -/
structure ROESignal where
  current_roe : ℚ
  roe_history : List ℚ
  roe_mean : ℚ
  roe_var : ℚ
  years_available : ℕ
  roe_above_20 : Bool
  roe_above_15 : Bool
  roe_above_10 : Bool
  is_highly_consistent : Bool
  is_consistent : Bool
  trend_direction : String
  trend_score : ℤ
  score : ℤ
deriving DecidableEq, Repr

/-- `ROEAnalyzer._analyze_trend`: simple first-vs-last comparison of the last
3 years (or the whole history when shorter); a rise of more than 2
percentage points scores +5, a fall of more than 2 scores -5. -/
def roeAnalyzeTrend (h : List ℚ) : String × ℤ :=
  if h.length < 2 then ("neutral", 0)
  else
    let recent := if h.length ≥ 3 then h.drop (h.length - 3) else h
    let first := recent.headD 0
    let last := recent.getLastD 0
    if last > first + 2 then ("up", 5)
    else if last < first - 2 then ("down", -5)
    else ("neutral", 0)

/-- `ROEAnalyzer._calculate_score`: level tier (+15/+10/+5), consistency
bonus (+10/+5, only with ≥ 5 years of data), trend score, clamped to
[0, 30]. -/
def roeCalcScore (roe_above_20 roe_above_15 roe_above_10 is_highly_consistent
    is_consistent : Bool) (trend_score : ℤ) (years_available : ℕ) : ℤ :=
  let score : ℤ :=
    (if roe_above_20 then 15 else if roe_above_15 then 10 else if roe_above_10 then 5 else 0)
    + (if years_available ≥ 5 then
        (if is_highly_consistent then 10 else if is_consistent then 5 else 0)
      else 0)
    + trend_score
  max 0 (min score 30)

/-- `ROEAnalyzer.analyze`: validity guard, ≥ 3 years of ROE history required
(else `none`), then level/consistency/trend scoring.  Consistency compares
`np.std` of the whole history with 3 resp. 5, decided on the variance. -/
def roeAnalyze (d : FundamentalData) : Option ROESignal :=
  if !d.is_valid then none
  else if d.roe_data.length < 3 then none
  else
    let h := sortedVals d.roe_data
    let current := h.getLastD 0
    let mean := h.sum / (h.length : ℚ)
    let v := if h.length > 1 then varP h else 0
    let roe_above_20 := decide (current ≥ 20)
    let roe_above_15 := decide (current ≥ 15)
    let roe_above_10 := decide (current ≥ 10)
    let is_highly_consistent := decide (v ≤ 9)
    let is_consistent := decide (v ≤ 25)
    let trend := roeAnalyzeTrend h
    some
      { current_roe := current
        roe_history := h
        roe_mean := mean
        roe_var := v
        years_available := h.length
        roe_above_20 := roe_above_20
        roe_above_15 := roe_above_15
        roe_above_10 := roe_above_10
        is_highly_consistent := is_highly_consistent
        is_consistent := is_consistent
        trend_direction := trend.1
        trend_score := trend.2
        score := roeCalcScore roe_above_20 roe_above_15 roe_above_10
          is_highly_consistent is_consistent trend.2 h.length }

/-- Result record of `GPMAnalyzer.analyze` (`GPMSignal`). -/
structure GPMSignal where
  current_gpm : ℚ
  gpm_history : List ℚ
  years_available : ℕ
  gpm_above_50 : Bool
  gpm_above_40 : Bool
  gpm_above_30 : Bool
  three_year_stable_or_rising : Bool
  score : ℤ
deriving DecidableEq, Repr

/-- `GPMAnalyzer._check_three_year_stability`: requires ≥ 3 years and no
year-on-year drop of more than 2 percentage points within the last 3. -/
def gpmThreeYearStable (h : List ℚ) : Bool :=
  if h.length < 3 then false
  else
    let recent := h.drop (h.length - 3)
    (List.range (recent.length - 1)).all (fun i =>
      !decide (recent.getD (i + 1) 0 < recent.getD i 0 - 2))

/-- `GPMAnalyzer._calculate_score`: level tier (+15/+10/+5) plus +10 for
3-year stability, capped at 25. -/
def gpmCalcScore (gpm_above_50 gpm_above_40 gpm_above_30 stable : Bool) : ℤ :=
  let score : ℤ :=
    (if gpm_above_50 then 15 else if gpm_above_40 then 10 else if gpm_above_30 then 5 else 0)
    + (if stable then 10 else 0)
  min score 25

/-- `GPMAnalyzer.analyze`: validity guard, ≥ 1 year of GPM history required
(else `none`). -/
def gpmAnalyze (d : FundamentalData) : Option GPMSignal :=
  if !d.is_valid then none
  else if d.gpm_data.length < 1 then none
  else
    let h := sortedVals d.gpm_data
    let current := h.getLastD 0
    let gpm_above_50 := decide (current ≥ 50)
    let gpm_above_40 := decide (current ≥ 40)
    let gpm_above_30 := decide (current ≥ 30)
    let stable := gpmThreeYearStable h
    some
      { current_gpm := current
        gpm_history := h
        years_available := h.length
        gpm_above_50 := gpm_above_50
        gpm_above_40 := gpm_above_40
        gpm_above_30 := gpm_above_30
        three_year_stable_or_rising := stable
        score := gpmCalcScore gpm_above_50 gpm_above_40 gpm_above_30 stable }

/-- Result record of `DebtAnalyzer.analyze` (`DebtSignal`); the stored
`years_to_repay` display field (`inf` when no repayment capacity) is
omitted. -/
structure DebtSignal where
  current_debt_ratio : ℚ
  total_debt : ℚ
  net_income : ℚ
  repayment_ratio : ℚ
  debt_below_50 : Bool
  debt_below_100 : Bool
  debt_below_150 : Bool
  debt_above_200 : Bool
  can_repay_in_5_years : Bool
  can_repay_in_10_years : Bool
  score : ℤ
deriving DecidableEq, Repr

/-- `DebtAnalyzer._calculate_score`: level tier (-10 above 200%, else
+15/+10/+5) plus repayment capacity (+10/+5), clamped to [0, 25]. -/
def debtCalcScore (debt_below_50 debt_below_100 debt_below_150 debt_above_200
    can_repay_in_5_years can_repay_in_10_years : Bool) : ℤ :=
  let score : ℤ :=
    (if debt_above_200 then -10
      else if debt_below_50 then 15
      else if debt_below_100 then 10
      else if debt_below_150 then 5
      else 0)
    + (if can_repay_in_5_years then 10 else if can_repay_in_10_years then 5 else 0)
  max 0 (min score 25)

/-- `DebtAnalyzer.analyze`: validity guard only (1 year of scalar data
suffices).  `total_equity ≤ 0` is treated as capital impairment: the debt
ratio is set to the sentinel 999.9 (triggering the above-200% penalty) and a
signal is still returned — not `none`. -/
def debtAnalyze (d : FundamentalData) : Option DebtSignal :=
  if !d.is_valid then none
  else
    let debt_ratio : ℚ := if d.total_equity ≤ 0 then 9999 / 10
      else d.total_debt / d.total_equity * 100
    let repayment_ratio : ℚ :=
      if d.total_debt > 0 ∧ d.net_income > 0 then d.net_income / d.total_debt * 100 else 0
    let debt_below_50 := decide (debt_ratio ≤ 50)
    let debt_below_100 := decide (debt_ratio ≤ 100)
    let debt_below_150 := decide (debt_ratio ≤ 150)
    let debt_above_200 := decide (debt_ratio > 200)
    let can_repay_in_5_years := decide (repayment_ratio ≥ 20)
    let can_repay_in_10_years := decide (repayment_ratio ≥ 10)
    some
      { current_debt_ratio := debt_ratio
        total_debt := d.total_debt
        net_income := d.net_income
        repayment_ratio := repayment_ratio
        debt_below_50 := debt_below_50
        debt_below_100 := debt_below_100
        debt_below_150 := debt_below_150
        debt_above_200 := debt_above_200
        can_repay_in_5_years := can_repay_in_5_years
        can_repay_in_10_years := can_repay_in_10_years
        score := debtCalcScore debt_below_50 debt_below_100 debt_below_150
          debt_above_200 can_repay_in_5_years can_repay_in_10_years }

/-- Result record of `CapExAnalyzer.analyze` (`CapExSignal`). -/
structure CapExSignal where
  current_capex : ℚ
  current_net_income : ℚ
  capex_to_income_ratio : ℚ
  capex_ratio_history : List ℚ
  capex_ratio_3y_avg : ℚ
  years_available : ℕ
  capex_below_15 : Bool
  capex_below_25 : Bool
  capex_below_35 : Bool
  capex_above_50 : Bool
  is_stable : Bool
  score : ℤ
deriving DecidableEq, Repr

/-- `sorted(set(capex.keys()) & set(net_income.keys()))`. -/
def commonYears (d : FundamentalData) : List ℤ :=
  (((d.capex_data.map Prod.fst).filter
      (fun y => (d.net_income_data.map Prod.fst).contains y)).dedup).insertionSort (· ≤ ·)

/-- The per-year `(year, capex/net_income*100)` pairs of `CapExAnalyzer`,
keeping only years with positive net income. -/
def capexRatioHistory (d : FundamentalData) : List (ℤ × ℚ) :=
  (commonYears d).filterMap (fun y =>
    let ni := lookupYear d.net_income_data y
    if 0 < ni then some (y, lookupYear d.capex_data y / ni * 100) else none)

/-- `CapExAnalyzer._calculate_score`: level tier (-10 at/above 50%, else
+15/+10/+5) plus +5 stability bonus, clamped to [0, 20]. -/
def capexCalcScore (capex_below_15 capex_below_25 capex_below_35 capex_above_50
    is_stable : Bool) : ℤ :=
  let score : ℤ :=
    (if capex_above_50 then -10
      else if capex_below_15 then 15
      else if capex_below_25 then 10
      else if capex_below_35 then 5
      else 0)
    + (if is_stable then 5 else 0)
  max 0 (min score 20)

/-- `CapExAnalyzer.analyze`: validity guard; `none` when either per-year map
is empty, when no common year exists, or when no common year has positive
net income; otherwise the latest ratio is scored against the tier table and
the trailing-3-sample average (stability within 20%). -/
def capexAnalyze (d : FundamentalData) : Option CapExSignal :=
  if !d.is_valid then none
  else if d.capex_data.isEmpty || d.net_income_data.isEmpty then none
  else if (commonYears d).isEmpty then none
  else
    let hist := capexRatioHistory d
    if hist.isEmpty then none
    else
      let latest := ((hist.map Prod.fst).max?).getD 0
      let current := ((hist.find? (fun p => p.1 == latest)).map Prod.snd).getD 0
      let currentCapex := lookupYear d.capex_data latest
      let currentNI := lookupYear d.net_income_data latest
      let vals := hist.map Prod.snd
      let recent3 := if vals.length ≥ 3 then vals.drop (vals.length - 3) else vals
      let avg3 := recent3.sum / (recent3.length : ℚ)
      let capex_below_15 := decide (current < 15)
      let capex_below_25 := decide (current < 25)
      let capex_below_35 := decide (current < 35)
      let capex_above_50 := decide (current ≥ 50)
      let is_stable := if 0 < avg3 then decide (qabs (current - avg3) / avg3 ≤ 1 / 5) else false
      some
        { current_capex := currentCapex
          current_net_income := currentNI
          capex_to_income_ratio := current
          capex_ratio_history := vals
          capex_ratio_3y_avg := avg3
          years_available := hist.length
          capex_below_15 := capex_below_15
          capex_below_25 := capex_below_25
          capex_below_35 := capex_below_35
          capex_above_50 := capex_above_50
          is_stable := is_stable
          score := capexCalcScore capex_below_15 capex_below_25 capex_below_35
            capex_above_50 is_stable }

-- ===========================================================================
-- Technical service (`technical_service.py`)
-- ===========================================================================

/-- Result record of `TechnicalService.analyze_stock` (`TechnicalSignal`). -/
structure TechnicalSignal where
  current_price : ℚ
  bollinger : Option BollingerSignal
  ma_alignment : Option MAAlignmentSignal
  cup_handle : Option CupHandleSignal
  total_score : ℤ
  active_patterns : List String
  bollinger_score : ℤ
  ma_alignment_score : ℤ
  cup_handle_score : ℤ
  bonus_score : ℤ
deriving DecidableEq, Repr

/-- Per-pattern bonus table `TechnicalService.BONUS_SCORES` as looked up by
the bonus loop of `analyze_stock`. -/
def technicalBonusOf (pattern : String) : ℤ :=
  if pattern = "bollinger_squeeze" then 15
  else if pattern = "ma_alignment" then 15
  else if pattern = "cup_handle" then 20
  else 0

/-- `TechnicalService.analyze_stock`: length guard (30), the three analyzers
gated by the requested filters, per-analyzer scores (0 when an analyzer
returned `None`), active patterns at the 40-point thresholds
(`SCORE_THRESHOLDS`), the per-pattern bonus sum (`BONUS_SCORES`:
bollinger 15, ma_alignment 15, cup_handle 20), and
`total_score = bollinger + ma + cup + bonus`. -/
def technicalAnalyzeStock (s : PriceSeries) (filters : List String) :
    Option TechnicalSignal :=
  if s.length < 30 then none
  else
    let c := (closes s).getD (s.length - 1) 0
    let b := if filters.contains "bollinger" then bAnalyze s else none
    let ma := if filters.contains "ma_alignment" then maAnalyze s else none
    let ch := if filters.contains "cup_handle" then chAnalyze s else none
    let bScore : ℤ := match b with | some x => x.score | none => 0
    let maScore : ℤ := match ma with | some x => x.score | none => 0
    let chScore : ℤ := match ch with | some x => x.score | none => 0
    let active :=
      (if bScore ≥ 40 then ["bollinger_squeeze"] else [])
        ++ (if maScore ≥ 40 then ["ma_alignment"] else [])
        ++ (if chScore ≥ 40 then ["cup_handle"] else [])
    let bonus := active.foldl (fun acc p => acc + technicalBonusOf p) 0
    some
      { current_price := c
        bollinger := b
        ma_alignment := ma
        cup_handle := ch
        total_score := bScore + maScore + chScore + bonus
        active_patterns := active
        bollinger_score := bScore
        ma_alignment_score := maScore
        cup_handle_score := chScore
        bonus_score := bonus }

-- ===========================================================================
-- Screening service (`screening_service.py`)
-- ===========================================================================

/-- Result record of `FundamentalService.analyze_stock`
(`FundamentalSignal`), as consumed by the screening filters. -/
structure FundamentalSignal where
  current_price : ℚ
  roe : Option ROESignal
  gpm : Option GPMSignal
  debt : Option DebtSignal
  capex : Option CapExSignal
  total_score : ℤ
  active_patterns : List String
  roe_score : ℤ
  gpm_score : ℤ
  debt_score : ℤ
  capex_score : ℤ
  bonus_score : ℤ
deriving DecidableEq, Repr

/-- `ScreeningService._calculate_cross_filter_bonus`: `10 × (count - 1)` for
2 or more active technical patterns, 0 otherwise. -/
def crossFilterBonus (technical : TechnicalSignal) : ℤ :=
  if technical.active_patterns.length ≥ 2 then
    10 * ((technical.active_patterns.length : ℤ) - 1)
  else 0

/-- The filter names the screening service's combination filters recognise; a
name outside this list matches no branch of either loop. -/
def recognizedFilter (f : String) : Bool :=
  f = "ichimoku" || f = "bollinger" || f = "ma_alignment" || f = "cup_handle"
    || f = "roe" || f = "gpm" || f = "debt" || f = "capex"

/-- One iteration of the `ScreeningService._passes_all_filters` loop: `false`
exactly when the source's branch for `f` hits a `return False`
(an unrecognised name matches no branch and cannot fail). -/
def passFilterAll (ichimoku : Option IchimokuSignal) (technical : Option TechnicalSignal)
    (fundamental : Option FundamentalSignal) (minScore : ℤ) (perfectOnly : Bool)
    (f : String) : Bool :=
  if f = "ichimoku" then
    match ichimoku with
    | none => false
    | some i =>
      if perfectOnly then i.price_above_cloud && i.tenkan_above_kijun && i.chikou_above_price
      else decide (i.score ≥ minScore)
  else if f = "bollinger" then
    match technical with
    | none => false
    | some t =>
      match t.bollinger with
      | none => false
      | some b => decide (b.score ≥ 40)
  else if f = "ma_alignment" then
    match technical with
    | none => false
    | some t =>
      match t.ma_alignment with
      | none => false
      | some m => decide (m.score ≥ 40)
  else if f = "cup_handle" then
    match technical with
    | none => false
    | some t =>
      match t.cup_handle with
      | none => false
      | some ch => ch.cup_detected && decide (ch.score ≥ 40)
  else if f = "roe" then
    match fundamental with
    | none => false
    | some fd =>
      match fd.roe with
      | none => false
      | some r => decide (r.score ≥ 15)
  else if f = "gpm" then
    match fundamental with
    | none => false
    | some fd =>
      match fd.gpm with
      | none => false
      | some g => decide (g.score ≥ 15)
  else if f = "debt" then
    match fundamental with
    | none => false
    | some fd =>
      match fd.debt with
      | none => false
      | some dj => decide (dj.score ≥ 15)
  else if f = "capex" then
    match fundamental with
    | none => false
    | some fd =>
      match fd.capex with
      | none => false
      | some cx => decide (cx.score ≥ 10)
  else true

/-- One iteration of the `ScreeningService._passes_any_filter` loop: `true`
exactly when the source's branch for `f` hits a `return True`
(an unrecognised name matches no branch and cannot succeed). -/
def passFilterAny (ichimoku : Option IchimokuSignal) (technical : Option TechnicalSignal)
    (fundamental : Option FundamentalSignal) (minScore : ℤ) (perfectOnly : Bool)
    (f : String) : Bool :=
  if f = "ichimoku" then
    match ichimoku with
    | none => false
    | some i =>
      if perfectOnly then i.price_above_cloud && i.tenkan_above_kijun && i.chikou_above_price
      else decide (i.score ≥ minScore)
  else if f = "bollinger" then
    match technical with
    | none => false
    | some t =>
      match t.bollinger with
      | none => false
      | some b => decide (b.score ≥ 40)
  else if f = "ma_alignment" then
    match technical with
    | none => false
    | some t =>
      match t.ma_alignment with
      | none => false
      | some m => decide (m.score ≥ 40)
  else if f = "cup_handle" then
    match technical with
    | none => false
    | some t =>
      match t.cup_handle with
      | none => false
      | some ch => ch.cup_detected && decide (ch.score ≥ 40)
  else if f = "roe" then
    match fundamental with
    | none => false
    | some fd =>
      match fd.roe with
      | none => false
      | some r => decide (r.score ≥ 15)
  else if f = "gpm" then
    match fundamental with
    | none => false
    | some fd =>
      match fd.gpm with
      | none => false
      | some g => decide (g.score ≥ 15)
  else if f = "debt" then
    match fundamental with
    | none => false
    | some fd =>
      match fd.debt with
      | none => false
      | some dj => decide (dj.score ≥ 15)
  else if f = "capex" then
    match fundamental with
    | none => false
    | some fd =>
      match fd.capex with
      | none => false
      | some cx => decide (cx.score ≥ 10)
  else false

/-- `ScreeningService._passes_all_filters` (AND mode): the source's loop
returns `False` as soon as any filter's branch fails, i.e. it accepts iff
every filter in the list passes its branch; an empty list accepts
vacuously. -/
def passesAllFilters (ichimoku : Option IchimokuSignal) (technical : Option TechnicalSignal)
    (fundamental : Option FundamentalSignal) (filters : List String) (minScore : ℤ)
    (perfectOnly : Bool) : Bool :=
  filters.all (passFilterAll ichimoku technical fundamental minScore perfectOnly)

/-- `ScreeningService._passes_any_filter` (OR mode): the source's loop
returns `True` as soon as any filter's branch succeeds, i.e. it accepts iff
some filter in the list passes its branch; an empty list rejects. -/
def passesAnyFilter (ichimoku : Option IchimokuSignal) (technical : Option TechnicalSignal)
    (fundamental : Option FundamentalSignal) (filters : List String) (minScore : ℤ)
    (perfectOnly : Bool) : Bool :=
  filters.any (passFilterAny ichimoku technical fundamental minScore perfectOnly)

-- ===========================================================================
-- Concrete inputs used by the witnesses and counterexamples
-- ===========================================================================

/-- A series of `n` identical bars: constant price `c`, constant volume `v`. -/
def flatSeries (n : ℕ) (c v : ℚ) : PriceSeries :=
  List.replicate n { openPrice := c, high := c, low := c, close := c, volume := v, value := 0 }

/-- A bar whose OHLC prices are all `c` with volume `v`. -/
def flatBar (c v : ℚ) : PriceBar :=
  { openPrice := c, high := c, low := c, close := c, volume := v, value := 0 }

/-- 140 bars at price 100 with volume 1000, except a 5000-volume spike on the
last bar: the Bollinger analyzer reports a strong squeeze (constant band
width) plus a 3×+ volume surge (score 65 ≥ 40, so the pattern is active),
the MA-alignment score is 0, and the series is too short (< 150) for the
chart-pattern analyzer. -/
def flatSpike140 : PriceSeries :=
  List.replicate 139 (flatBar 100 1000) ++ [flatBar 100 5000]

/-- Piecewise-linear price: flat 100, a straight 25% decline to 75 at bar 32,
a straight recovery to 100 at bar 58, then flat. -/
def cupShapePrice (i : ℕ) : ℚ :=
  if i ≤ 2 then 100
  else if i ≤ 32 then 100 - (25 / 30 : ℚ) * ((i : ℚ) - 2)
  else if i ≤ 58 then 75 + (25 / 26 : ℚ) * ((i : ℚ) - 32)
  else 100

/-- A 61-bar series carrying one perfectly symmetric 25%-deep cup — the
single `(start_offset, duration) = (60, 60)` candidate of the search space,
which survives every guard. -/
def cupSeries61 : PriceSeries :=
  (List.range 61).map (fun i => flatBar (cupShapePrice i) 1000)

/-- ROE history [8, 9, 10, 11, 30] over five years (the spec's worked
example). -/
def roeRecord : FundamentalData :=
  { is_valid := true
    roe_data := [(2019, 8), (2020, 9), (2021, 10), (2022, 11), (2023, 30)] }

/-- A valid record in capital impairment: debt 100, equity 0, no income. -/
def debtRecordZeroEquity : FundamentalData :=
  { is_valid := true, total_debt := 100, total_equity := 0, net_income := 0 }

/-- A valid record with a single year of capex 10 against net income 100. -/
def capexRecord : FundamentalData :=
  { is_valid := true, capex_data := [(2023, 10)], net_income_data := [(2023, 100)] }

/-- A valid record whose only common year has non-positive net income. -/
def capexRecordNoIncome : FundamentalData :=
  { is_valid := true, capex_data := [(2023, 10)], net_income_data := [(2023, 0)] }

/-- A valid record with a two-year ROE history (below the three required). -/
def roeRecordShort : FundamentalData :=
  { is_valid := true, roe_data := [(2022, 10), (2023, 12)] }

/-- A valid record with no gross-margin history. -/
def gpmRecordEmpty : FundamentalData :=
  { is_valid := true }

/-- A `ROESignal` with score 20 (as produced for `roeRecord`), used to feed
the combination filters a fundamental signal that clears the ROE
threshold. -/
def sampleROESignal : ROESignal :=
  { current_roe := 30
    roe_history := [8, 9, 10, 11, 30]
    roe_mean := 68 / 5
    roe_var := 1706 / 25
    years_available := 5
    roe_above_20 := true
    roe_above_15 := true
    roe_above_10 := true
    is_highly_consistent := false
    is_consistent := false
    trend_direction := "up"
    trend_score := 5
    score := 20 }

/-- A `FundamentalSignal` carrying only `sampleROESignal`. -/
def sampleFundamentalSignal : FundamentalSignal :=
  { current_price := 100
    roe := some sampleROESignal
    gpm := none
    debt := none
    capex := none
    total_score := 20
    active_patterns := ["roe_excellence"]
    roe_score := 20
    gpm_score := 0
    debt_score := 0
    capex_score := 0
    bonus_score := 0 }

-- ===========================================================================
-- Helper lemmas
-- ===========================================================================

theorem passFilter_all_eq_any (ichimoku : Option IchimokuSignal)
    (technical : Option TechnicalSignal) (fundamental : Option FundamentalSignal)
    (minScore : ℤ) (perfectOnly : Bool) (f : String)
    (hrec : recognizedFilter f = true) :
    passFilterAll ichimoku technical fundamental minScore perfectOnly f
      = passFilterAny ichimoku technical fundamental minScore perfectOnly f := by
  simp only [recognizedFilter, Bool.or_eq_true, decide_eq_true_eq] at hrec
  rcases hrec with ((((((h | h) | h) | h) | h) | h) | h) | h <;>
    subst h <;> simp [passFilterAll, passFilterAny]

-- ===========================================================================
-- Claims
-- ===========================================================================

/-- C10: with an empty filter list, the AND-mode combination filter
(`_passes_all_filters`) accepts every asset vacuously, while the OR-mode
filter (`_passes_any_filter`) rejects every asset, whatever the analyzers
produced. -/
theorem empty_filters_all_accepts_any_rejects
    (ichimoku : Option IchimokuSignal) (technical : Option TechnicalSignal)
    (fundamental : Option FundamentalSignal) (minScore : ℤ) (perfectOnly : Bool) :
    passesAllFilters ichimoku technical fundamental [] minScore perfectOnly = true ∧
      passesAnyFilter ichimoku technical fundamental [] minScore perfectOnly = false :=
  ⟨rfl, rfl⟩

/-- C8: on the five-year ROE history [8, 9, 10, 11, 30] the ROE analyzer
returns score exactly 20 = 15 (level tier: current 30 ≥ 20) + 0 (no
consistency bonus: the population standard deviation exceeds 5, i.e. the
variance 1706/25 exceeds 25) + 5 (the last-3-year trend [10, 11, 30] rises
by more than 2 percentage points). -/
theorem roe_example_scores_twenty :
    (roeAnalyze roeRecord).map
      (fun s => (s.score, s.roe_above_20, s.is_consistent, s.is_highly_consistent,
        s.trend_score))
      = some (20, true, false, false, 5) := by
  decide

/-- C5 (counterexample to the claim as stated): with the empty filter list,
an asset passes the AND-mode combination filter but not the OR-mode one, so
the "all" result set is not contained in the "any" result set for every
filter list. -/
theorem all_implies_any_fails_on_empty_list :
    passesAllFilters none none none [] 50 false = true ∧
      passesAnyFilter none none none [] 50 false = false :=
  ⟨rfl, rfl⟩

/-- C5 (amended): for every filter list containing at least one recognised
filter name, and any fixed per-analyzer outcomes, passing the AND-mode
combination filter implies passing the OR-mode one (the per-filter pass
conditions of the two loops coincide on recognised names). -/
theorem all_filters_subset_any_filter
    (ichimoku : Option IchimokuSignal) (technical : Option TechnicalSignal)
    (fundamental : Option FundamentalSignal) (filters : List String)
    (minScore : ℤ) (perfectOnly : Bool)
    (hrec : ∃ f ∈ filters, recognizedFilter f = true)
    (hall : passesAllFilters ichimoku technical fundamental filters minScore perfectOnly
      = true) :
    passesAnyFilter ichimoku technical fundamental filters minScore perfectOnly = true := by
  obtain ⟨f, hf, hfr⟩ := hrec
  have hpass : passFilterAll ichimoku technical fundamental minScore perfectOnly f = true :=
    List.all_eq_true.mp hall f hf
  exact List.any_eq_true.mpr
    ⟨f, hf, by
      rw [← passFilter_all_eq_any ichimoku technical fundamental minScore perfectOnly f hfr]
      exact hpass⟩

/-- C5 (witness): with only the `roe` filter requested and a fundamental
signal whose ROE score is 20, the asset passes AND mode, and the theorem
transports this to OR mode. -/
theorem all_filters_subset_any_filter_witness :
    passesAllFilters none none (some sampleFundamentalSignal) ["roe"] 50 false = true ∧
      passesAnyFilter none none (some sampleFundamentalSignal) ["roe"] 50 false = true :=
  ⟨by decide,
    all_filters_subset_any_filter none none (some sampleFundamentalSignal) ["roe"] 50 false
      ⟨"roe", by decide, by decide⟩ (by decide)⟩

/-- C3 (counterexample to the claim as stated): a valid record with total
equity 0 (and debt 100) makes the leverage analyzer return a *signal* — with
the above-200% penalty applied and the score floored to 0 — not null. -/
theorem debt_zero_equity_returns_signal :
    (debtAnalyze debtRecordZeroEquity).map (fun s => (s.debt_above_200, s.score))
      = some (true, 0) := by
  decide

/-- C3 (amended): the return-on-equity analyzer returns null for fewer than
three years of history, the gross-margin analyzer for an empty history, and
the capital-expenditure analyzer when no year has positive net income; the
leverage analyzer however treats total equity ≤ 0 as capital impairment and
returns a signal with the debt ratio pinned to 999.9 (so the above-200%
penalty fires), never null for a valid record. -/
theorem fundamental_denominator_handling :
    (∀ d : FundamentalData, d.roe_data.length < 3 → roeAnalyze d = none) ∧
    (∀ d : FundamentalData, d.gpm_data = [] → gpmAnalyze d = none) ∧
    (∀ d : FundamentalData, (∀ p ∈ d.net_income_data, p.2 ≤ 0) → capexAnalyze d = none) ∧
    (∀ d : FundamentalData, d.is_valid = true → d.total_equity ≤ 0 →
      ∃ s, debtAnalyze d = some s ∧ s.debt_above_200 = true) := by
  refine ⟨?_, ?_, ?_, ?_⟩
  · intro d h
    cases hb : d.is_valid <;> simp [roeAnalyze, hb, h]
  · intro d h
    cases hb : d.is_valid <;> simp [gpmAnalyze, hb, h]
  · intro d h
    have hnil : capexRatioHistory d = [] := by
      unfold capexRatioHistory
      rw [List.filterMap_eq_nil_iff]
      intro y _
      have hle : lookupYear d.net_income_data y ≤ 0 := by
        unfold lookupYear
        cases hf : d.net_income_data.find? (fun p => p.1 == y) with
        | none => simp
        | some p =>
          simpa using h p (List.mem_of_find?_eq_some hf)
      simp only []
      rw [if_neg (by exact fun hpos => absurd hle (not_le.mpr hpos))]
    cases hb : d.is_valid <;>
      simp [capexAnalyze, hb, hnil]
  · intro d hv he
    simp only [debtAnalyze, hv, Bool.not_true, Bool.false_eq_true, if_false]
    refine ⟨_, rfl, ?_⟩
    simp only [decide_eq_true_eq]
    rw [if_pos he]
    norm_num

/-- C3 (witness): the theorem applied to four concrete records — a two-year
ROE history, an empty gross-margin history, a sole year with zero net
income, and a zero-equity balance sheet. -/
theorem fundamental_denominator_handling_witness :
    roeAnalyze roeRecordShort = none ∧ gpmAnalyze gpmRecordEmpty = none ∧
      capexAnalyze capexRecordNoIncome = none ∧
      (debtAnalyze debtRecordZeroEquity).map DebtSignal.debt_above_200 = some true := by
  refine ⟨fundamental_denominator_handling.1 roeRecordShort (by decide),
    fundamental_denominator_handling.2.1 gpmRecordEmpty (by decide),
    fundamental_denominator_handling.2.2.1 capexRecordNoIncome (by decide), ?_⟩
  obtain ⟨s, hs, hflag⟩ :=
    fundamental_denominator_handling.2.2.2 debtRecordZeroEquity (by decide) (by decide)
  simp [hs, hflag]

/-- C4 (counterexample to the claim as stated): a 78-bar series has all four
pivot/band values defined at the last bar (78 = 52 + 26 is exactly the
warm-up of the displaced 52-bar band), yet the trend-cloud analyzer returns
null, because its length guard requires 52 + 26 + 5 = 83 bars. -/
theorem ichimoku_78_bars_defined_but_null :
    ichimokuValuesDefined (flatSeries 78 100 1000) = true ∧
      ichAnalyze (flatSeries 78 100 1000) = none := by
  constructor <;> decide

/-- C4 (amended): the trend-cloud analyzer's minimum series length is
83 = 52 + 26 + 5 bars: every shorter series yields null, and every series of
length at least 83 whose pivot and band values are defined at the last bar
yields a non-null signal. -/
theorem ichimoku_minimum_length (s : PriceSeries) :
    (s.length < 83 → ichAnalyze s = none) ∧
      (83 ≤ s.length → ichimokuValuesDefined s = true → (ichAnalyze s).isSome = true) := by
  constructor
  · intro h
    unfold ichAnalyze
    rw [if_pos (by omega : s.length < 52 + 26 + 5)]
  · intro h83 hdef
    unfold ichAnalyze
    rw [if_neg (by omega : ¬ s.length < 52 + 26 + 5)]
    simp only [ichimokuValuesDefined, Bool.and_eq_true, Option.isSome_iff_exists] at hdef
    obtain ⟨⟨⟨⟨tk, htk⟩, kj, hkj⟩, sa, hsa⟩, sb, hsb⟩ := hdef
    dsimp only
    rw [htk, hkj, hsa, hsb]
    rfl

/-- C4 (witness): a 70-bar series yields null; an 83-bar series has defined
values and yields a signal. -/
theorem ichimoku_minimum_length_witness :
    ichAnalyze (flatSeries 70 100 1000) = none ∧
      ichimokuValuesDefined (flatSeries 83 100 1000) = true ∧
      (ichAnalyze (flatSeries 83 100 1000)).isSome = true :=
  ⟨(ichimoku_minimum_length (flatSeries 70 100 1000)).1 (by decide),
    by decide,
    (ichimoku_minimum_length (flatSeries 83 100 1000)).2 (by decide) (by decide)⟩

theorem ichCalcScore_range (b1 b2 b3 b4 b5 b6 : Bool) (cp cb : ℚ) :
    -100 ≤ ichCalcScore b1 b2 b3 b4 b5 b6 cp cb ∧ ichCalcScore b1 b2 b3 b4 b5 b6 cp cb ≤ 100 :=
  ⟨le_max_left _ _, max_le (by norm_num) (min_le_left _ _)⟩

theorem maCalcScore_range (b1 b2 b3 b4 b5 b6 b7 : Bool) :
    -100 ≤ maCalcScore b1 b2 b3 b4 b5 b6 b7 ∧ maCalcScore b1 b2 b3 b4 b5 b6 b7 ≤ 95 :=
  ⟨le_max_left _ _, max_le (by norm_num) (min_le_right _ _)⟩

theorem bCalcScore_range (b1 b2 b3 b4 b5 : Bool) :
    0 ≤ bCalcScore b1 b2 b3 b4 b5 ∧ bCalcScore b1 b2 b3 b4 b5 ≤ 80 := by
  cases b1 <;> cases b2 <;> cases b3 <;> cases b4 <;> cases b5 <;> decide

theorem capexCalcScore_range (b1 b2 b3 b4 b5 : Bool) :
    0 ≤ capexCalcScore b1 b2 b3 b4 b5 ∧ capexCalcScore b1 b2 b3 b4 b5 ≤ 20 :=
  ⟨le_max_left _ _, max_le (by norm_num) (min_le_right _ _)⟩

/-- C9: whenever an analyzer returns a signal, the trend-cloud score lies in
[-100, 100], the MA-alignment score in [-100, 95], the volatility-band score
in [0, 80] and the capital-expenditure score in [0, 20] (each score is
produced by the analyzer's clamped `_calculate_score`). -/
theorem analyzer_score_ranges :
    (∀ (s : PriceSeries) (sig : IchimokuSignal), ichAnalyze s = some sig →
      -100 ≤ sig.score ∧ sig.score ≤ 100) ∧
    (∀ (s : PriceSeries) (sig : MAAlignmentSignal), maAnalyze s = some sig →
      -100 ≤ sig.score ∧ sig.score ≤ 95) ∧
    (∀ (s : PriceSeries) (sig : BollingerSignal), bAnalyze s = some sig →
      0 ≤ sig.score ∧ sig.score ≤ 80) ∧
    (∀ (d : FundamentalData) (sig : CapExSignal), capexAnalyze d = some sig →
      0 ≤ sig.score ∧ sig.score ≤ 20) := by
  refine ⟨?_, ?_, ?_, ?_⟩
  · intro s sig h
    unfold ichAnalyze at h
    split at h
    · exact absurd h (by simp)
    · dsimp only at h
      split at h
      · rw [Option.some.injEq] at h
        subst h
        exact ichCalcScore_range _ _ _ _ _ _ _ _
      · exact absurd h (by simp)
  · intro s sig h
    unfold maAnalyze at h
    split at h
    · exact absurd h (by simp)
    · dsimp only at h
      split at h
      · exact absurd h (by simp)
      · rw [Option.some.injEq] at h
        subst h
        exact maCalcScore_range _ _ _ _ _ _ _
  · intro s sig h
    unfold bAnalyze at h
    split at h
    · exact absurd h (by simp)
    · dsimp only at h
      split at h
      · split at h
        · exact absurd h (by simp)
        · split at h
          · exact absurd h (by simp)
          · rw [Option.some.injEq] at h
            subst h
            exact bCalcScore_range _ _ _ _ _
      · exact absurd h (by simp)
  · intro d sig h
    unfold capexAnalyze at h
    split at h
    · exact absurd h (by simp)
    · split at h
      · exact absurd h (by simp)
      · dsimp only at h
        split at h
        · exact absurd h (by simp)
        · split at h
          · exact absurd h (by simp)
          · rw [Option.some.injEq] at h
            subst h
            exact capexCalcScore_range _ _ _ _ _

/-- Default used only to name the value inside a known-`some` option. -/
def dummyIchimokuSignal : IchimokuSignal :=
  { current_price := 0, signal_strength := .neutral, score := 0,
    price_above_cloud := false, tenkan_above_kijun := false, chikou_above_price := false,
    cloud_bullish := false, cloud_breakout := false, golden_cross := false,
    thin_cloud := false, tenkan_sen := 0, kijun_sen := 0, senkou_span_a := 0,
    senkou_span_b := 0, chikou_span := 0, avg_trading_value := 0 }

/-- Default used only to name the value inside a known-`some` option. -/
def dummyMAAlignmentSignal : MAAlignmentSignal :=
  { sma_5 := none, sma_20 := none, sma_60 := none, sma_120 := none, disparity := none,
    is_perfect_alignment := false, is_partial_alignment := false, alignment_count := 0,
    golden_cross_5_20 := false, golden_cross_20_60 := false, golden_cross_60_120 := false,
    disparity_optimal := false, disparity_overheated := false, score := 0 }

/-- Default used only to name the value inside a known-`some` option. -/
def dummyBollingerSignal : BollingerSignal :=
  { middle_band := 0, bandwidth_var := 0, bandwidth_mid := 0, is_squeeze := false,
    is_strong_squeeze := false, bandwidth_percentile := 0, volume_ratio := 0,
    volume_surge := false, strong_volume_surge := false, band_breakout_attempt := false,
    score := 0 }

/-- Default used only to name the value inside a known-`some` option. -/
def dummyCapExSignal : CapExSignal :=
  { current_capex := 0, current_net_income := 0, capex_to_income_ratio := 0,
    capex_ratio_history := [], capex_ratio_3y_avg := 0, years_available := 0,
    capex_below_15 := false, capex_below_25 := false, capex_below_35 := false,
    capex_above_50 := false, is_stable := false, score := 0 }

set_option maxRecDepth 100000 in
/-- C9 (witness): the four parts of the range theorem applied to signals the
analyzers actually return — an 83-bar flat series for the trend cloud, a
200-bar flat series for MA alignment and the volatility band, and a one-year
capex record. -/
theorem analyzer_score_ranges_witness :
    (-100 ≤ ((ichAnalyze (flatSeries 83 100 1000)).getD dummyIchimokuSignal).score ∧
      ((ichAnalyze (flatSeries 83 100 1000)).getD dummyIchimokuSignal).score ≤ 100) ∧
    (-100 ≤ ((maAnalyze (flatSeries 200 100 1000)).getD dummyMAAlignmentSignal).score ∧
      ((maAnalyze (flatSeries 200 100 1000)).getD dummyMAAlignmentSignal).score ≤ 95) ∧
    (0 ≤ ((bAnalyze (flatSeries 200 100 1000)).getD dummyBollingerSignal).score ∧
      ((bAnalyze (flatSeries 200 100 1000)).getD dummyBollingerSignal).score ≤ 80) ∧
    (0 ≤ ((capexAnalyze capexRecord).getD dummyCapExSignal).score ∧
      ((capexAnalyze capexRecord).getD dummyCapExSignal).score ≤ 20) := by
  have h1 : ichAnalyze (flatSeries 83 100 1000)
      = some ((ichAnalyze (flatSeries 83 100 1000)).getD dummyIchimokuSignal) := by decide
  have h2 : maAnalyze (flatSeries 200 100 1000)
      = some ((maAnalyze (flatSeries 200 100 1000)).getD dummyMAAlignmentSignal) := by decide
  have h3 : bAnalyze (flatSeries 200 100 1000)
      = some ((bAnalyze (flatSeries 200 100 1000)).getD dummyBollingerSignal) := by decide
  have h4 : capexAnalyze capexRecord
      = some ((capexAnalyze capexRecord).getD dummyCapExSignal) := by decide
  exact ⟨analyzer_score_ranges.1 _ _ h1, analyzer_score_ranges.2.1 _ _ h2,
    analyzer_score_ranges.2.2.1 _ _ h3, analyzer_score_ranges.2.2.2 _ _ h4⟩

theorem activePatternsBonus (bS mS cS : ℤ) :
    ((if bS ≥ 40 then ["bollinger_squeeze"] else [])
        ++ (if mS ≥ 40 then ["ma_alignment"] else [])
        ++ (if cS ≥ 40 then ["cup_handle"] else [])).foldl
        (fun acc p => acc + technicalBonusOf p) 0
      = (if bS ≥ 40 then 15 else 0) + (if mS ≥ 40 then 15 else 0)
        + (if cS ≥ 40 then 20 else 0) := by
  by_cases hb : bS ≥ 40 <;> by_cases hm : mS ≥ 40 <;> by_cases hc : cS ≥ 40 <;>
    simp [hb, hm, hc, technicalBonusOf]

/-- Default used only to name the value inside a known-`some` option. -/
def dummyTechnicalSignal : TechnicalSignal :=
  { current_price := 0, bollinger := none, ma_alignment := none, cup_handle := none,
    total_score := 0, active_patterns := [], bollinger_score := 0, ma_alignment_score := 0,
    cup_handle_score := 0, bonus_score := 0 }

set_option maxRecDepth 100000 in
/-- C1 (counterexample to the claim as stated): on a 140-bar flat series
with a last-day volume spike, requesting the full technical trio activates
exactly one analyzer (volatility band, raw scores 65 + 0 + 0), and the
aggregator adds a bonus of 15 — not the claimed 0 for a single active
analyzer — so the total score is 80, not 65. -/
theorem technical_bonus_not_cross_formula :
    (technicalAnalyzeStock flatSpike140 ["bollinger", "ma_alignment", "cup_handle"]).map
        (fun t => (t.active_patterns.length, t.bollinger_score + t.ma_alignment_score
          + t.cup_handle_score, t.bonus_score, t.total_score))
      = some (1, 65, 15, 80) ∧ ¬ ((15 : ℤ) = 0 ∧ (80 : ℤ) = 65 + 0) := by
  constructor
  · decide
  · decide

/-- C1 (amended): in `TechnicalService.analyze_stock` the bonus added into
the technical total score is the sum of fixed per-pattern bonuses — 15 for
the volatility band, 15 for MA alignment, 20 for the chart pattern — over
the analyzers whose raw score clears the 40-point threshold (so one active
analyzer already earns its bonus), and
`total_score = bollinger + ma + cup + bonus`.  The `10 × (count − 1)`
cross-confirmation formula (0 for fewer than two active patterns) is
computed separately by `ScreeningService._calculate_cross_filter_bonus` from
the count of active technical patterns, and in `_analyze_stocks` it is added
to the trend-cloud score only when both a trend-cloud and a technical signal
are present. -/
theorem technical_aggregation_bonus_and_total (s : PriceSeries) (filters : List String)
    (sig : TechnicalSignal) (h : technicalAnalyzeStock s filters = some sig) :
    sig.bonus_score = (if sig.bollinger_score ≥ 40 then 15 else 0)
        + (if sig.ma_alignment_score ≥ 40 then 15 else 0)
        + (if sig.cup_handle_score ≥ 40 then 20 else 0) ∧
      sig.total_score = sig.bollinger_score + sig.ma_alignment_score
        + sig.cup_handle_score + sig.bonus_score ∧
      crossFilterBonus sig = (if sig.active_patterns.length ≥ 2 then
        10 * ((sig.active_patterns.length : ℤ) - 1) else 0) := by
  unfold technicalAnalyzeStock at h
  split at h
  · exact absurd h (by simp)
  · dsimp only at h
    rw [Option.some.injEq] at h
    subst h
    exact ⟨activePatternsBonus _ _ _, rfl, rfl⟩

set_option maxRecDepth 100000 in
/-- C1 (witness): the aggregation theorem applied to the flat-spike series
with the full technical trio requested. -/
theorem technical_aggregation_bonus_and_total_witness :
    (((technicalAnalyzeStock flatSpike140 ["bollinger", "ma_alignment", "cup_handle"]).getD
        dummyTechnicalSignal).bonus_score
      = (if ((technicalAnalyzeStock flatSpike140
            ["bollinger", "ma_alignment", "cup_handle"]).getD
            dummyTechnicalSignal).bollinger_score ≥ 40 then 15 else 0)
        + (if ((technicalAnalyzeStock flatSpike140
            ["bollinger", "ma_alignment", "cup_handle"]).getD
            dummyTechnicalSignal).ma_alignment_score ≥ 40 then 15 else 0)
        + (if ((technicalAnalyzeStock flatSpike140
            ["bollinger", "ma_alignment", "cup_handle"]).getD
            dummyTechnicalSignal).cup_handle_score ≥ 40 then 20 else 0)) ∧
    (((technicalAnalyzeStock flatSpike140 ["bollinger", "ma_alignment", "cup_handle"]).getD
        dummyTechnicalSignal).total_score
      = ((technicalAnalyzeStock flatSpike140 ["bollinger", "ma_alignment", "cup_handle"]).getD
          dummyTechnicalSignal).bollinger_score
        + ((technicalAnalyzeStock flatSpike140 ["bollinger", "ma_alignment", "cup_handle"]).getD
          dummyTechnicalSignal).ma_alignment_score
        + ((technicalAnalyzeStock flatSpike140 ["bollinger", "ma_alignment", "cup_handle"]).getD
          dummyTechnicalSignal).cup_handle_score
        + ((technicalAnalyzeStock flatSpike140 ["bollinger", "ma_alignment", "cup_handle"]).getD
          dummyTechnicalSignal).bonus_score) := by
  have h : technicalAnalyzeStock flatSpike140 ["bollinger", "ma_alignment", "cup_handle"]
      = some ((technicalAnalyzeStock flatSpike140 ["bollinger", "ma_alignment", "cup_handle"]).getD
        dummyTechnicalSignal) := by decide
  have hmain := technical_aggregation_bonus_and_total flatSpike140
    ["bollinger", "ma_alignment", "cup_handle"] _ h
  exact ⟨hmain.1, hmain.2.1⟩

/-- The acceptance conditions of the cup search, as properties of a retained
candidate. -/
def cupAccepted (cup : CupCandidate) : Prop :=
  15 ≤ cup.depth ∧ cup.depth ≤ 40 ∧
    (9 / 10 : ℚ) ≤ cup.rightPeak / cup.leftPeak ∧
    cup.rightPeak / cup.leftPeak ≤ 11 / 10 ∧
    cup.cupBottom < cup.leftPeak * (9 / 10) ∧ cup.cupBottom < cup.rightPeak * (9 / 10)

theorem evalCandidate_sound (cs hs : List ℚ) (n so dur : ℕ) (cand : CupCandidate)
    (psc : ℚ) (h : evalCandidate cs hs n so dur = some (cand, psc)) : cupAccepted cand := by
  unfold evalCandidate at h
  dsimp only at h
  split at h
  · exact absurd h (by simp)
  split at h
  · exact absurd h (by simp)
  split at h
  · exact absurd h (by simp)
  split at h
  · exact absurd h (by simp)
  split at h
  · exact absurd h (by simp)
  split at h
  · exact absurd h (by simp)
  split at h
  · exact absurd h (by simp)
  rename_i hend hss hlp hdepth hrre hratio hU
  rw [Option.some.injEq, Prod.mk.injEq] at h
  obtain ⟨hcand, -⟩ := h
  subst hcand
  push_neg at hdepth hratio hU
  exact ⟨hdepth.1, hdepth.2, hratio.1, hratio.2, hU.1, hU.2⟩

theorem cupFoldl_invariant (cs hs : List ℚ) (n : ℕ)
    (l : List (ℕ × ℕ)) (st : Option CupCandidate × ℚ)
    (hst : ∀ c, st.1 = some c → cupAccepted c) :
    ∀ c, (l.foldl (cupStep cs hs n) st).1 = some c → cupAccepted c := by
  induction l generalizing st with
  | nil => exact hst
  | cons pr rest ih =>
    rw [List.foldl_cons]
    apply ih
    intro c hc
    unfold cupStep at hc
    cases hev : evalCandidate cs hs n pr.1 pr.2 with
    | none => rw [hev] at hc; exact hst c hc
    | some cp =>
      obtain ⟨cand, psc⟩ := cp
      rw [hev] at hc
      dsimp only at hc
      split at hc
      · rw [Option.some.injEq] at hc
        subst hc
        exact evalCandidate_sound cs hs n pr.1 pr.2 cand psc hev
      · exact hst c hc

/-- C6: whenever the cup search retains a candidate, the retained cup
geometry satisfies every acceptance condition: the depth
`(leftPeak − bottom)/leftPeak` in percent lies in [15, 40], the
right-peak/left-peak ratio lies in [0.90, 1.10], and the cup bottom lies
strictly below 90% of both peaks.  (`CupHandleAnalyzer.analyze` reports
`cup_detected = true` exactly when this search returns a candidate, copying
its geometry into the signal.) -/
theorem cup_search_result_meets_acceptance (s : PriceSeries) (cup : CupCandidate)
    (h : findCupPattern s = some cup) :
    15 ≤ cup.depth ∧ cup.depth ≤ 40 ∧
      (9 / 10 : ℚ) ≤ cup.rightPeak / cup.leftPeak ∧
      cup.rightPeak / cup.leftPeak ≤ 11 / 10 ∧
      cup.cupBottom < cup.leftPeak * (9 / 10) ∧ cup.cupBottom < cup.rightPeak * (9 / 10) := by
  unfold findCupPattern at h
  split at h
  · exact absurd h (by simp)
  · exact cupFoldl_invariant (closes s) (highsOf s) s.length (cupPairs s.length) (none, 0)
      (fun c hc => absurd hc (by simp)) cup h

/-- Default used only to name the value inside a known-`some` option. -/
def dummyCupCandidate : CupCandidate :=
  { leftPeakIdx := 0, bottomIdx := 0, rightPeakIdx := 0, leftPeak := 0, cupBottom := 0,
    rightPeak := 0, depth := 0, duration := 0 }

set_option maxRecDepth 100000 in
/-- C6 (witness): the acceptance theorem applied to the cup the search finds
in the 61-bar engineered cup series. -/
theorem cup_search_result_meets_acceptance_witness :
    15 ≤ ((findCupPattern cupSeries61).getD dummyCupCandidate).depth ∧
      ((findCupPattern cupSeries61).getD dummyCupCandidate).depth ≤ 40 ∧
      (9 / 10 : ℚ) ≤ ((findCupPattern cupSeries61).getD dummyCupCandidate).rightPeak
        / ((findCupPattern cupSeries61).getD dummyCupCandidate).leftPeak ∧
      ((findCupPattern cupSeries61).getD dummyCupCandidate).rightPeak
        / ((findCupPattern cupSeries61).getD dummyCupCandidate).leftPeak ≤ 11 / 10 ∧
      ((findCupPattern cupSeries61).getD dummyCupCandidate).cupBottom
        < ((findCupPattern cupSeries61).getD dummyCupCandidate).leftPeak * (9 / 10) ∧
      ((findCupPattern cupSeries61).getD dummyCupCandidate).cupBottom
        < ((findCupPattern cupSeries61).getD dummyCupCandidate).rightPeak * (9 / 10) := by
  have h : findCupPattern cupSeries61
      = some ((findCupPattern cupSeries61).getD dummyCupCandidate) := by decide
  exact cup_search_result_meets_acceptance cupSeries61 _ h

theorem pySlice_replicate (n a b : ℕ) (x : ℚ) :
    pySlice (List.replicate n x) a b = List.replicate (min (b - a) (n - a)) x := by
  simp [pySlice, List.drop_replicate, List.take_replicate]

theorem getD_replicate_ite (n i : ℕ) (x d : ℚ) :
    (List.replicate n x).getD i d = if i < n then x else d := by
  rw [List.getD_eq_getElem?_getD, List.getElem?_replicate]
  split <;> rfl

theorem foldl_argStepMax_replicate (x : ℚ) :
    ∀ (m j b : ℕ), (List.replicate m x).foldl argStepMax (j, b, x) = (j + m, b, x) := by
  intro m
  induction m with
  | zero => intro j b; simp
  | succ k ih =>
    intro j b
    rw [List.replicate_succ, List.foldl_cons]
    have hstep : argStepMax (j, b, x) x = (j + 1, b, x) := by
      unfold argStepMax
      rw [if_neg (lt_irrefl x)]
    rw [hstep, ih]
    have : j + 1 + k = j + (k + 1) := by omega
    rw [this]

theorem foldl_argStepMin_replicate (x : ℚ) :
    ∀ (m j b : ℕ), (List.replicate m x).foldl argStepMin (j, b, x) = (j + m, b, x) := by
  intro m
  induction m with
  | zero => intro j b; simp
  | succ k ih =>
    intro j b
    rw [List.replicate_succ, List.foldl_cons]
    have hstep : argStepMin (j, b, x) x = (j + 1, b, x) := by
      unfold argStepMin
      rw [if_neg (lt_irrefl x)]
    rw [hstep, ih]
    have : j + 1 + k = j + (k + 1) := by omega
    rw [this]

theorem argmaxIdx_replicate (k : ℕ) (x : ℚ) : argmaxIdx (List.replicate k x) = 0 := by
  cases k with
  | zero => rfl
  | succ m =>
    unfold argmaxIdx
    rw [List.replicate_succ, List.headD_cons, ← List.replicate_succ,
      foldl_argStepMax_replicate]

theorem argminIdx_replicate (k : ℕ) (x : ℚ) : argminIdx (List.replicate k x) = 0 := by
  cases k with
  | zero => rfl
  | succ m =>
    unfold argminIdx
    rw [List.replicate_succ, List.headD_cons, ← List.replicate_succ,
      foldl_argStepMin_replicate]

theorem evalCandidate_replicate (n so dur : ℕ) (c : ℚ) :
    evalCandidate (List.replicate n c) (List.replicate n c) n so dur = none := by
  unfold evalCandidate
  dsimp only
  split
  · rfl
  split
  · rfl
  split
  · rfl
  split
  · rfl
  rename_i hend hss hlp hdepth
  exfalso
  simp only [pySlice_replicate, argmaxIdx_replicate, argminIdx_replicate, Nat.add_zero,
    getD_replicate_ite] at hss hlp hdepth
  rw [if_pos (by omega), if_pos (by omega)] at hdepth
  rw [if_pos (by omega)] at hlp
  exact hdepth (Or.inl (by rw [sub_self, zero_div, zero_mul]; norm_num))

theorem foldl_fixed {α β : Type} (f : α → β → α) (hf : ∀ a b, f a b = a) :
    ∀ (l : List β) (a : α), l.foldl f a = a := by
  intro l
  induction l with
  | nil => intro a; rfl
  | cons x rest ih => intro a; rw [List.foldl_cons, hf, ih]

theorem cupStep_replicate (n : ℕ) (c : ℚ) (st : Option CupCandidate × ℚ) (pr : ℕ × ℕ) :
    cupStep (List.replicate n c) (List.replicate n c) n st pr = st := by
  unfold cupStep
  rw [evalCandidate_replicate]

theorem findCupPattern_flat (n : ℕ) (c v : ℚ) :
    findCupPattern (flatSeries n c v) = none := by
  unfold findCupPattern
  split
  · rfl
  · dsimp only
    have hcs : closes (flatSeries n c v) = List.replicate (flatSeries n c v).length c := by
      simp [closes, flatSeries, List.map_replicate, flatBar]
    have hhs : highsOf (flatSeries n c v) = List.replicate (flatSeries n c v).length c := by
      simp [highsOf, flatSeries, List.map_replicate, flatBar]
    rw [hcs, hhs, foldl_fixed _ (cupStep_replicate (flatSeries n c v).length c)]

/-- C7: the chart-pattern analyzer returns null exactly for series shorter
than 150 bars; on any series of length at least 150 in which no cup
candidate survives the search it returns a non-null signal with
`cup_detected = false` and score 0. -/
theorem cup_absent_signal_vs_insufficient_data (s : PriceSeries) :
    (s.length < 150 → chAnalyze s = none) ∧
      (150 ≤ s.length → findCupPattern s = none →
        ∃ sig, chAnalyze s = some sig ∧ sig.cup_detected = false ∧ sig.score = 0) := by
  constructor
  · intro h
    unfold chAnalyze
    rw [if_pos h]
  · intro h150 hcup
    unfold chAnalyze
    rw [if_neg (not_lt.mpr h150)]
    dsimp only
    rw [hcup]
    exact ⟨_, rfl, rfl, rfl⟩

/-- C7 (witness): a 100-bar flat series yields null; a 150-bar flat series
(no cup survives: every candidate has depth 0) yields the
"analyzed, pattern absent" signal with score 0. -/
theorem cup_absent_signal_vs_insufficient_data_witness :
    chAnalyze (flatSeries 100 100 1000) = none ∧
      (chAnalyze (flatSeries 150 100 1000)).map (fun sig => (sig.cup_detected, sig.score))
        = some (false, 0) := by
  refine ⟨(cup_absent_signal_vs_insufficient_data (flatSeries 100 100 1000)).1 (by decide), ?_⟩
  obtain ⟨sig, hs, h1, h2⟩ :=
    (cup_absent_signal_vs_insufficient_data (flatSeries 150 100 1000)).2 (by decide)
      (findCupPattern_flat 150 100 1000)
  rw [hs]
  simp [h1, h2]

theorem winSlice_replicate (n w i : ℕ) (c : ℚ) (h1 : w ≤ i + 1) (h2 : i < n) :
    winSlice (List.replicate n c) w i = some (List.replicate w c) := by
  unfold winSlice
  rw [if_pos ⟨h1, by simpa using h2⟩]
  rw [List.drop_replicate, List.take_replicate]
  have hmin : min w (n - (i + 1 - w)) = w := by omega
  rw [hmin]

theorem rollingMean_replicate (n w i : ℕ) (c : ℚ) (h1 : w ≤ i + 1) (h2 : i < n)
    (hw : 0 < w) : rollingMean (List.replicate n c) w i = some c := by
  unfold rollingMean
  rw [winSlice_replicate n w i c h1 h2, Option.map_some']
  congr 1
  rw [List.sum_replicate, nsmul_eq_mul]
  exact mul_div_cancel_left₀ c (by exact_mod_cast hw.ne')

theorem rollingVarS_replicate (n w i : ℕ) (c : ℚ) (h1 : w ≤ i + 1) (h2 : i < n)
    (hw : 0 < w) : rollingVarS (List.replicate n c) w i = some 0 := by
  unfold rollingVarS
  rw [winSlice_replicate n w i c h1 h2, Option.map_some']
  congr 1
  dsimp only
  have hm : (List.replicate w c).sum / (w : ℚ) = c := by
    rw [List.sum_replicate, nsmul_eq_mul]
    exact mul_div_cancel_left₀ c (by exact_mod_cast hw.ne')
  rw [hm, List.map_replicate]
  simp

theorem bandwidthAt_replicate (n i : ℕ) (c : ℚ) (h1 : 20 ≤ i + 1) (h2 : i < n)
    (hc0 : c ≠ 0) : bandwidthAt (List.replicate n c) i = some (0, c) := by
  unfold bandwidthAt
  rw [rollingVarS_replicate n 20 i c h1 h2 (by norm_num),
    rollingMean_replicate n 20 i c h1 h2 (by norm_num)]
  dsimp only
  rw [if_neg hc0]

theorem filterMap_const_some {α β : Type} (f : α → Option β) (b : β) (l : List α)
    (h : ∀ a ∈ l, f a = some b) : l.filterMap f = List.replicate l.length b := by
  induction l with
  | nil => rfl
  | cons x rest ih =>
    rw [List.filterMap_cons, h x (List.mem_cons_self x rest), List.length_cons,
      List.replicate_succ]
    rw [ih (fun a ha => h a (List.mem_cons_of_mem x ha))]

theorem countP_replicate (p : ℚ × ℚ → Bool) (k : ℕ) (x : ℚ × ℚ) :
    (List.replicate k x).countP p = if p x then k else 0 := by
  induction k with
  | zero => simp
  | succ m ih =>
    rw [List.replicate_succ, List.countP_cons, ih]
    split <;> simp_all

theorem bwLt_zero_self (c : ℚ) : bwLt (0, c) (0, c) = false := by
  unfold bwLt
  simp

theorem detectGoldenCross_replicate (n fw sw : ℕ) (c : ℚ) (hn : 6 ≤ n)
    (hfw : 0 < fw) (hsw : 0 < sw) (hfn : fw ≤ n - 5) (hsn : sw ≤ n - 5) :
    detectGoldenCross (List.replicate n c) n fw sw = false := by
  unfold detectGoldenCross
  rw [if_neg (by omega)]
  rw [List.any_eq_false]
  intro k hk
  have hk5 : k < 5 := List.mem_range.mp hk
  dsimp only
  rw [rollingMean_replicate n fw (n - (k + 1)) c (by omega) (by omega) hfw,
    rollingMean_replicate n sw (n - (k + 1)) c (by omega) (by omega) hsw,
    rollingMean_replicate n fw (n - (k + 1) - 1) c (by omega) (by omega) hfw,
    rollingMean_replicate n sw (n - (k + 1) - 1) c (by omega) (by omega) hsw]
  simp [lt_irrefl]

theorem bAnalyze_const (s : PriceSeries) (c v : ℚ) (hlen : s.length = 200)
    (hcs : closes s = List.replicate 200 c) (hvs : volumesOf s = List.replicate 200 v)
    (hc0 : c ≠ 0) :
    (bAnalyze s).map (fun t => (t.is_squeeze, t.is_strong_squeeze, t.score))
      = some (true, true, 35) := by
  unfold bAnalyze
  rw [hlen, hcs, hvs]
  rw [if_neg (by norm_num : ¬ (200 : ℕ) < 60)]
  dsimp only
  rw [rollingVarS_replicate 200 20 (200 - 1) c (by norm_num) (by norm_num) (by norm_num),
    rollingMean_replicate 200 20 (200 - 1) c (by norm_num) (by norm_num) (by norm_num)]
  dsimp only
  rw [if_neg hc0]
  have hrec : (List.range 60).filterMap (fun k => bandwidthAt (List.replicate 200 c) (200 - 60 + k))
      = List.replicate 60 ((0 : ℚ), c) := by
    rw [filterMap_const_some _ _ _ (fun k hk =>
      bandwidthAt_replicate 200 (200 - 60 + k) c (by omega) (by
        have := List.mem_range.mp hk
        omega) hc0)]
    simp
  rw [hrec]
  rw [if_neg (by norm_num : ¬ (List.replicate 60 ((0 : ℚ), c)).length < 30)]
  have hcount : (List.replicate 60 ((0 : ℚ), c)).countP (fun p => bwLt p (0, c)) = 0 := by
    rw [countP_replicate]
    simp [bwLt_zero_self]
  rw [rollingMean_replicate 200 20 (200 - 1) v (by norm_num) (by norm_num) (by norm_num)]
  dsimp only
  by_cases hv : v = 0
  · norm_num [hcount, hv, getD_replicate_ite, bCalcScore]
  · norm_num [hcount, hv, getD_replicate_ite, div_self hv, bCalcScore]

theorem maAnalyze_const (s : PriceSeries) (c : ℚ) (hlen : s.length = 200)
    (hcs : closes s = List.replicate 200 c) (hc0 : c ≠ 0) :
    (maAnalyze s).map MAAlignmentSignal.score = some 0 := by
  unfold maAnalyze
  rw [hlen, hcs]
  rw [if_neg (by norm_num : ¬ (200 : ℕ) < 130)]
  dsimp only
  rw [rollingMean_replicate 200 5 (200 - 1) c (by norm_num) (by norm_num) (by norm_num),
    rollingMean_replicate 200 20 (200 - 1) c (by norm_num) (by norm_num) (by norm_num),
    rollingMean_replicate 200 60 (200 - 1) c (by norm_num) (by norm_num) (by norm_num),
    rollingMean_replicate 200 120 (200 - 1) c (by norm_num) (by norm_num) (by norm_num)]
  dsimp only
  have hdisp : disparityAt (List.replicate 200 c) (200 - 1) = some 0 := by
    unfold disparityAt
    rw [rollingMean_replicate 200 20 (200 - 1) c (by norm_num) (by norm_num) (by norm_num)]
    have hget : (List.replicate 200 c).get? (200 - 1) = some c := by
      rw [List.get?_eq_getElem?, List.getElem?_replicate, if_pos (by norm_num)]
    rw [hget]
    dsimp only
    rw [if_neg hc0]
    rw [sub_self, zero_div, zero_mul]
  rw [hdisp]
  rw [detectGoldenCross_replicate 200 5 20 c (by norm_num) (by norm_num) (by norm_num)
      (by norm_num) (by norm_num),
    detectGoldenCross_replicate 200 20 60 c (by norm_num) (by norm_num) (by norm_num)
      (by norm_num) (by norm_num),
    detectGoldenCross_replicate 200 60 120 c (by norm_num) (by norm_num) (by norm_num)
      (by norm_num) (by norm_num)]
  norm_num [optGtQO, optGtOO, lt_irrefl, maCalcScore]

set_option maxRecDepth 100000 in
/-- C2 (counterexample to the claim as stated): on a 200-bar series with
constant close 100 and constant volume 1000 the volatility-band analyzer
reports `is_squeeze = true` with score 35, not `is_squeeze = false` with
score 0 — a constant band width ranks at percentile 0 of its own trailing
distribution, which the analyzer counts as a strong squeeze. -/
theorem flat_series_reports_strong_squeeze :
    (bAnalyze (flatSeries 200 100 1000)).map (fun t => (t.is_squeeze, t.score))
      = some (true, 35) := by
  decide

/-- C2 (amended): for every 200-bar price series with constant nonzero close
and constant volume, the MA-alignment analyzer returns a signal with score
exactly 0 (no alignment, no crosses, zero disparity), and the
volatility-band analyzer does not fail — it returns a signal — but with
`is_squeeze = true`, `is_strong_squeeze = true` and score 35 (constant band
width ⇒ percentile 0 ⇒ strong squeeze; the degenerate `%B` is NaN,
defaulted to 0.5, and the constant volume gives ratio 1, so no other score
component fires).  A constant close of exactly 0 instead makes the
band-width NaN and the volatility-band analyzer returns null. -/
theorem flat_series_ma_zero_and_squeeze_signal (s : PriceSeries) (c v : ℚ)
    (hlen : s.length = 200) (hc : ∀ b ∈ s, b.close = c) (hv : ∀ b ∈ s, b.volume = v)
    (hc0 : c ≠ 0) :
    (maAnalyze s).map MAAlignmentSignal.score = some 0 ∧
      (bAnalyze s).map (fun t => (t.is_squeeze, t.is_strong_squeeze, t.score))
        = some (true, true, 35) := by
  have hcs : closes s = List.replicate 200 c := by
    rw [List.eq_replicate_iff]
    refine ⟨by simp [closes, hlen], ?_⟩
    intro x hx
    obtain ⟨b, hb, rfl⟩ := List.mem_map.mp hx
    exact hc b hb
  have hvs : volumesOf s = List.replicate 200 v := by
    rw [List.eq_replicate_iff]
    refine ⟨by simp [volumesOf, hlen], ?_⟩
    intro x hx
    obtain ⟨b, hb, rfl⟩ := List.mem_map.mp hx
    exact hv b hb
  exact ⟨maAnalyze_const s c hlen hcs hc0, bAnalyze_const s c v hlen hcs hvs hc0⟩

set_option maxRecDepth 100000 in
/-- C2 (witness): the amended theorem applied to the concrete flat series of
200 bars at price 100 and volume 1000. -/
theorem flat_series_ma_zero_and_squeeze_signal_witness :
    (100 : ℚ) ≠ 0 ∧
      (maAnalyze (flatSeries 200 100 1000)).map MAAlignmentSignal.score = some 0 ∧
      (bAnalyze (flatSeries 200 100 1000)).map
        (fun t => (t.is_squeeze, t.is_strong_squeeze, t.score)) = some (true, true, 35) := by
  have h := flat_series_ma_zero_and_squeeze_signal (flatSeries 200 100 1000) 100 1000
    (by decide) (by decide) (by decide) (by norm_num)
  exact ⟨by norm_num, h.1, h.2⟩
